import Mathlib

/-!
# G4L shader module (`src/shader.c`)

A shallow embedding of the shader-program management layer: the location cache
(`get_location`), the active-program register (`l_shader_set`), the attribute binder
(`l_shader_attribute`), the uniform read and write metamethods (`l_shader___index`,
`l_shader___newindex`) and the compile/link pipeline (`l_shader_new`).

The graphics driver is external.  Every call into it is appended to an event log kept in the
state, together with the program that was current when the call was issued; the answers the
driver gives (locations, compile and link status, uniform contents, fresh object names) are
fields of an environment `Env` and may depend on the whole log.  Machine integers are `Int`
or `Nat` with the conversions between C types written out (`to_int`, `to_size_t`,
`to_GLuint`; `int` and `GLsizei` are 32 bits wide, `size_t`, `ptrdiff_t` and pointers 64).
Lua errors (`luaL_error`) are the `Except.error` results, and the state returned next to an
error is the state at the point of the throw.
-/

namespace G4L

abbrev GLuint := Nat
abbrev GLint := Int

/-- The conversion of an integer value to `int` (and to `GLsizei`): the value modulo 2^32,
taken in the range -2^31 .. 2^31 - 1. -/
def to_int (x : Int) : Int :=
  (x + 2147483648) % 4294967296 - 2147483648

/-- The conversion of an integer value to `size_t`: the value modulo 2^64. -/
def to_size_t (x : Int) : Int :=
  x % 18446744073709551616

/-- The conversion of an integer value to `GLuint`: the value modulo 2^32. -/
def to_GLuint (x : Int) : GLuint :=
  (x % 4294967296).toNat

/-- A `lua_Number`, a double, as far as this module observes it: the module never computes
with it.  `nan` is a NaN; `dyadic m e` stands for the finite number `m * 2 ^ e`. -/
inductive lua_Number where
  | nan
  | dyadic (mant : Int) (exp : Int)
  deriving DecidableEq, Repr

/-- A `GLfloat`, a float: `nan` is the value of `0./.0` converted to float; `dyadic m e`
stands for the finite number `m * 2 ^ e`. -/
inductive GLfloat where
  | nan
  | dyadic (mant : Int) (exp : Int)
  deriving DecidableEq, Repr

/-- The conversion of a float to a double, as in `lua_pushnumber(L, params[i])`: it is
exact. -/
def GLfloat.widen : GLfloat → lua_Number
  | .nan => .nan
  | .dyadic m e => .dyadic m e

/-- The number 0 as a `lua_Number`. -/
def lua_Number.zero : lua_Number := .dyadic 0 0

def lua_Number.isNaN : lua_Number → Bool
  | .nan => true
  | .dyadic _ _ => false

/-- Whether a float and a double stand for the same number. -/
def GLfloat.denotes : GLfloat → lua_Number → Bool
  | .nan, .nan => true
  | .dyadic m1 e1, .dyadic m2 e2 =>
    m1 * 2 ^ (e1 - min e1 e2).toNat == m2 * 2 ^ (e2 - min e1 e2).toNat
  | _, _ => false

/-- The value `0.0f` with which C fills the array elements an initialiser list leaves out. -/
def GLfloat.zero : GLfloat := .dyadic 0 0

def GLfloat.isNaN : GLfloat → Bool
  | .nan => true
  | .dyadic _ _ => false

/-- The struct `shader` of shader.h: the handle of a linked program. -/
structure shader where
  id : GLuint
  deriving DecidableEq, Repr

/-- Modelled from the spec: `vbo` of vbo.h, of which the module reads `id` and
`record_size` (the number of float components per record, taken to be an `int`). -/
structure vbo where
  id : GLuint
  record_size : Int
  deriving DecidableEq, Repr

/-- Modelled from the spec: `vec4` of math.h, a tagged value with a dimension and a flat
component buffer. -/
structure vec4 where
  dim : Int
  v : List GLfloat
  deriving DecidableEq, Repr

/-- Modelled from the spec: `mat44` of math.h, a tagged value with a number of rows and a
flat component buffer. -/
structure mat44 where
  rows : Int
  m : List GLfloat
  deriving DecidableEq, Repr

/-- The Lua values that can stand at an argument index.  Vectors and matrices are userdata
tagged by their metatable; `userdata` is any other userdata. -/
inductive LuaValue where
  | nil
  | boolean (b : Bool)
  | lightuserdata
  | number (x : lua_Number)
  | string (s : String)
  | table
  | function
  | userdata
  | thread
  | vec (v : vec4)
  | mat (m : mat44)
  deriving DecidableEq, Repr

/-- The name `lua_typename(L, lua_type(L, idx))` of the type of a value. -/
def lua_typename : LuaValue → String
  | .nil => "nil"
  | .boolean _ => "boolean"
  | .lightuserdata => "userdata"
  | .number _ => "number"
  | .string _ => "string"
  | .table => "table"
  | .function => "function"
  | .userdata => "userdata"
  | .thread => "thread"
  | .vec _ => "userdata"
  | .mat _ => "userdata"

/-- Modelled from the spec: `l_isanyvec` of math.h, true for vector values. -/
def l_isanyvec : LuaValue → Bool
  | .vec _ => true
  | _ => false

/-- Modelled from the spec: `l_isanymat` of math.h, true for matrix values. -/
def l_isanymat : LuaValue → Bool
  | .mat _ => true
  | _ => false

/-- The two location namespaces: `UNIFORMS_NAME` with `glGetUniformLocation` and
`ATTRIBUTES_NAME` with `glGetAttribLocation` (the two macros over `get_location`). -/
inductive Kind where
  | uniform
  | attribute
  deriving DecidableEq, Repr

inductive ShaderType where
  | GL_VERTEX_SHADER
  | GL_FRAGMENT_SHADER
  deriving DecidableEq, Repr

inductive Pname where
  | GL_COMPILE_STATUS
  | GL_LINK_STATUS
  | GL_INFO_LOG_LENGTH
  deriving DecidableEq, Repr

/-- The driver calls the module issues, with their arguments (and, for the two object
constructors, the name the driver handed out). -/
inductive GLCall where
  | useProgram (program : GLuint)
  | getUniformLocation (program : GLuint) (name : String)
  | getAttribLocation (program : GLuint) (name : String)
  | disableVertexAttribArray (index : GLuint)
  | enableVertexAttribArray (index : GLuint)
  | bindBuffer (buffer : GLuint)
  | vertexAttribPointer (index : GLuint) (size : Int) (stride : Int) (pointer : Int)
  | getUniformfv (program : GLuint) (location : GLint)
  | uniform1f (location : GLint) (v0 : GLfloat)
  | uniform2fv (location : GLint) (count : Int) (value : List GLfloat)
  | uniform3fv (location : GLint) (count : Int) (value : List GLfloat)
  | uniform4fv (location : GLint) (count : Int) (value : List GLfloat)
  | uniformMatrix2fv (location : GLint) (count : Int) (transpose : Bool) (value : List GLfloat)
  | uniformMatrix3fv (location : GLint) (count : Int) (transpose : Bool) (value : List GLfloat)
  | uniformMatrix4fv (location : GLint) (count : Int) (transpose : Bool) (value : List GLfloat)
  | createShader (type : ShaderType) (result : GLuint)
  | shaderSource (shader : GLuint) (source : String)
  | compileShader (shader : GLuint)
  | getShaderiv (shader : GLuint) (pname : Pname)
  | getShaderInfoLog (shader : GLuint)
  | deleteShader (shader : GLuint)
  | createProgram (result : GLuint)
  | attachShader (program : GLuint) (shader : GLuint)
  | linkProgram (program : GLuint)
  | getProgramiv (program : GLuint) (pname : Pname)
  | getProgramInfoLog (program : GLuint)
  | deleteProgram (program : GLuint)
  deriving DecidableEq, Repr

/-- One entry of the driver log: the call and the program that was current when it was
issued. -/
structure Event where
  call : GLCall
  current : GLuint
  deriving DecidableEq, Repr

/-- What the module takes from its surroundings: the answers of the driver, which may depend
on everything that was asked of it before, the condition `context_available()` of helper.h,
and the string/number conversions of the Lua runtime. -/
structure Env where
  glGetUniformLocation : List Event → GLuint → String → GLint
  glGetAttribLocation : List Event → GLuint → String → GLint
  /-- the components `glGetUniformfv` writes, in order, from `params[0]` on -/
  glGetUniformfv : List Event → GLuint → GLint → List GLfloat
  glCreateShader : List Event → ShaderType → GLuint
  glCreateProgram : List Event → GLuint
  /-- the `GL_COMPILE_STATUS` of a stage object -/
  compileStatus : List Event → GLuint → Bool
  /-- the `GL_LINK_STATUS` of a program object -/
  linkStatus : List Event → GLuint → Bool
  shaderInfoLog : List Event → GLuint → String
  programInfoLog : List Event → GLuint → String
  context_available : Bool
  /-- the conversion behind `lua_isnumber` and `lua_tonumber` on a string -/
  str2d : String → Option lua_Number
  /-- the conversion behind `lua_tostring` on a number -/
  number2str : lua_Number → String
  /-- the conversion of C from a double argument to a `GLfloat` parameter -/
  narrow : lua_Number → GLfloat

/-- A Lua table with keys of type `κ`, as the list of its entries. -/
abbrev Table (κ ν : Type) := List (κ × ν)

/-- As `lua_rawget`: the value stored under a key, if any. -/
def Table.rawget {κ ν : Type} [DecidableEq κ] : Table κ ν → κ → Option ν
  | [], _ => none
  | (k, v) :: t, key => if k = key then some v else Table.rawget t key

/-- As `lua_rawset` of a non-nil value: the entry under the key is replaced, or added. -/
def Table.rawset {κ ν : Type} [DecidableEq κ] : Table κ ν → κ → ν → Table κ ν
  | [], key, val => [(key, val)]
  | (k, v) :: t, key, val =>
    if k = key then (k, val) :: t else (k, v) :: Table.rawset t key val

/-- A registry entry `G4L.Shader.uniforms` or `G4L.Shader.attributes`:
program id → (name → location).  The keys are the integer keys as Lua holds them:
`lua_pushinteger` gives the id itself, `lua_rawseti` the id converted to `int`. -/
abbrev Registry := Table Int (Table String GLint)

inductive Error where
  /-- message "`%s' not found. Maybe it's optimized out?" -/
  | LocationNotFound (name : String)
  /-- message "Cannot set value %s: Unknown type `%s'." -/
  | UnsupportedUniformType (name : String) (typeName : String)
  /-- message "Invalid range: [%d:%d]. Need 1-4 elements." -/
  | InvalidAttributeRange (low : Int) (high : Int)
  /-- message "No OpenGL context available. Create a window first." -/
  | NoContext
  /-- raised by `luaL_typerror(L, narg, tname)` -/
  | TypeError (narg : Nat) (tname : String)
  /-- messages "Cannot compile vertex shader:\n%s" and "Cannot compile fragment shader:\n%s" -/
  | CompileError (stage : ShaderType) (log : String)
  /-- message "Cannot link shader:\n%s" -/
  | LinkError (log : String)
  /-- raised where `lua_rawget` is applied to a nil value, or a field read through a null pointer: the C
  semantics gives no result -/
  | InvalidAccess
  deriving DecidableEq, Repr

/-- The process-wide state: the static `active`, the two registry entries (absent until the
first program is built), and the driver with its current program and its log. -/
structure State where
  active : Option shader
  uniforms : Option Registry
  attributes : Option Registry
  bound : GLuint
  log : List Event
  deriving DecidableEq, Repr

def State.registry (st : State) : Kind → Option Registry
  | .uniform => st.uniforms
  | .attribute => st.attributes

def State.setRegistry (st : State) (k : Kind) (r : Registry) : State :=
  match k with
  | .uniform => { st with uniforms := some r }
  | .attribute => { st with attributes := some r }

/-- A driver call is logged with the program current at that moment. -/
def glCall (st : State) (c : GLCall) : State :=
  { st with log := st.log ++ [⟨c, st.bound⟩] }

/-- The call `glUseProgram(program)`: logged, then `program` is the current program. -/
def glUseProgram (st : State) (program : GLuint) : State :=
  { glCall st (.useProgram program) with bound := program }

def Env.getter (E : Env) : Kind → List Event → GLuint → String → GLint
  | .uniform => E.glGetUniformLocation
  | .attribute => E.glGetAttribLocation

def Kind.query : Kind → GLuint → String → GLCall
  | .uniform => GLCall.getUniformLocation
  | .attribute => GLCall.getAttribLocation

/-- The function `get_location` (lines 17–47), for the registry and the getter of one kind. -/
def get_location (E : Env) (st : State) (s : shader) (name : String) (kind : Kind) :
    Except Error GLint × State :=
  match st.registry kind with
  | none => (.error .InvalidAccess, st)
  | some reg =>
    match reg.rawget (s.id : Int) with
    | none => (.error .InvalidAccess, st)
    | some tbl =>
      match tbl.rawget name with
      | some location => (.ok location, st)
      | none =>
        let location := E.getter kind st.log s.id name
        let st1 := glCall st (kind.query s.id name)
        if location = -1 then
          (.error (.LocationNotFound name), st1)
        else
          (.ok location,
            st1.setRegistry kind (reg.rawset (s.id : Int) (tbl.rawset name location)))

def get_uniform_location (E : Env) (st : State) (s : shader) (name : String) :
    Except Error GLint × State :=
  get_location E st s name .uniform

def get_attribute_location (E : Env) (st : State) (s : shader) (name : String) :
    Except Error GLint × State :=
  get_location E st s name .attribute

/-- The function `l_shader_set` (lines 57–68); `none` is an absent or nil argument. -/
def l_shader_set (st : State) (arg : Option shader) : Except Error Unit × State :=
  match arg with
  | none => (.ok (), { glUseProgram st 0 with active := none })
  | some s => (.ok (), { glUseProgram st s.id with active := some s })

/-- The loops `while (low <= 0) low += v->record_size + 1;` (lines 87–88 and 91–92), run for
at most `fuel` tests of the condition; `none` when the loop has not left by then.  The
additions are exact: for an `int` bound that is not positive and a record size below
`INT_MAX` they stay inside the range of `int`. -/
def while_nonpositive : Nat → Int → Int → Option Int
  | 0, _, _ => none
  | fuel + 1, record_size, b =>
    if b ≤ 0 then while_nonpositive fuel record_size (b + (record_size + 1)) else some b

/-- The macro `luaL_optint(L, narg, d)`, which is `(int)luaL_optinteger(L, narg, d)`: `arg`
is the `lua_Integer` of a supplied argument, `none` for an absent or nil one. -/
def luaL_optint (arg : Option Int) (d : Int) : Int :=
  match arg with
  | none => to_int d
  | some n => to_int n

/-- Lines 94–104 of `l_shader_attribute`: the span test and the three driver calls, for the
bounds `low` and `high` the two loops have left.  The location is converted to the `GLuint`
index of the attribute calls, the products with `sizeof(GLfloat)` are taken in `size_t`, and
the stride is converted to `GLsizei`. -/
def attribute_range (st1 : State) (s : shader) (v : vbo) (location : GLint)
    (low high : Int) : Except Error shader × State :=
  let span := high - low + 1
  if span ≤ 0 ∨ span > 4 then
    (.error (.InvalidAttributeRange low high), st1)
  else
    let st2 := glCall st1 (.enableVertexAttribArray (to_GLuint location))
    let st3 := glCall st2 (.bindBuffer v.id)
    let st4 := glCall st3
      (.vertexAttribPointer (to_GLuint location) span
        (to_int (to_size_t (4 * to_size_t v.record_size)))
        (to_size_t (4 * to_size_t (low - 1))))
    (.ok s, st4)

/-- The function `l_shader_attribute` (lines 70–105).  `arg3 = none` is an absent, nil or
false third argument; the result is the shader itself (`lua_settop(L, 1); return 1`).  The
outer `Option` is `none` when a loop has not left within `fuel` tests. -/
def l_shader_attribute (E : Env) (fuel : Nat) (st : State) (s : shader) (name : String)
    (arg3 : Option vbo) (arg4 arg5 : Option Int) : Option (Except Error shader × State) :=
  match get_attribute_location E st s name with
  | (.error e, st1) => some (.error e, st1)
  | (.ok location, st1) =>
    match arg3 with
    | none => some (.ok s, glCall st1 (.disableVertexAttribArray (to_GLuint location)))
    | some v =>
      match while_nonpositive fuel v.record_size (luaL_optint arg4 1) with
      | none => none
      | some low =>
        match while_nonpositive fuel v.record_size (luaL_optint arg5 v.record_size) with
        | none => none
        | some high => some (attribute_range st1 s v location low high)

/-- The function `l_shader___gc` (lines 108–113). -/
def l_shader___gc (st : State) (s : shader) : Except Error Unit × State :=
  (.ok (), glCall st (.deleteProgram s.id))

/-- The functions placed in the metatable `G4L.Shader` (lines 264–273). -/
inductive CFunction where
  | l_shader___gc
  | l_shader___index
  | l_shader___newindex
  | l_shader_attribute
  deriving DecidableEq, Repr

/-- The metatable `G4L.Shader` as filled at lines 265–272, read with `lua_rawget`. -/
def shader_metatable : String → Option CFunction
  | "__gc" => some .l_shader___gc
  | "__index" => some .l_shader___index
  | "__newindex" => some .l_shader___newindex
  | "attribute" => some .l_shader_attribute
  | _ => none

/-- What `l_shader___index` leaves on top of the stack as its one result. -/
inductive IndexResult where
  | nil
  | cfunction (f : CFunction)
  /-- the table built at lines 131–135, entry `i + 1` of the table being element `i` -/
  | sequence (params : List lua_Number)
  deriving DecidableEq, Repr

/-- The array `GLfloat params[16] = {0./.0};` (line 128): the initialiser list names the
first element, the other fifteen are zero-initialised. -/
def params_init : List GLfloat :=
  GLfloat.nan :: List.replicate 15 GLfloat.zero

/-- Lines 123–136 of `l_shader___index`, the uniform read, as they run for a non-null `s`:
the location is resolved, the driver writes its components over the front of `params`, and
the sixteen elements are copied to a table. -/
def l_shader___index_uniform (E : Env) (st : State) (s : shader) (name : String) :
    Except Error IndexResult × State :=
  match get_uniform_location E st s name with
  | (.error e, st1) => (.error e, st1)
  | (.ok location, st1) =>
    let written := E.glGetUniformfv st1.log s.id location
    let st2 := glCall st1 (.getUniformfv s.id location)
    let params := (written ++ params_init.drop written.length).take 16
    (.ok (.sequence (params.map GLfloat.widen)), st2)

/-- The function `l_shader___index` (lines 115–137).  `arg1` is the value at stack index 1:
`some s` for a shader userdata, `none` for nil.  Lines 117–119 push the metatable entry of
the key; line 120 tests index 1, so with a shader at index 1 the entry is returned.  With nil
at index 1, `lua_touserdata` gives NULL and `s->id` is read through it. -/
def l_shader___index (st : State) (arg1 : Option shader) (key : String) :
    Except Error IndexResult × State :=
  let top : IndexResult :=
    match shader_metatable key with
    | some f => .cfunction f
    | none => .nil
  match arg1 with
  | some _ => (.ok top, st)
  | none => (.error .InvalidAccess, st)

/-- As `lua_isnumber`: a number, or a string convertible to a number. -/
def lua_isnumber (E : Env) : LuaValue → Bool
  | .number _ => true
  | .string s => (E.str2d s).isSome
  | _ => false

/-- As `lua_tonumber`: the number, the converted string, or 0. -/
def lua_tonumber (E : Env) : LuaValue → lua_Number
  | .number x => x
  | .string s => (E.str2d s).getD lua_Number.zero
  | _ => lua_Number.zero

/-- As `lua_isstring`: a string or a number. -/
def lua_isstring : LuaValue → Bool
  | .string _ => true
  | .number _ => true
  | _ => false

/-- As `lua_tostring` on a value for which `lua_isstring` holds. -/
def lua_tostring (E : Env) : LuaValue → String
  | .string s => s
  | .number x => E.number2str x
  | _ => ""

/-- The statement `if (NULL != active) glUseProgram(active->id);` (lines 177–178 and
184–185). -/
def use_active (st : State) : State :=
  match st.active with
  | some a => glUseProgram st a.id
  | none => st

/-- The function `l_shader___newindex` (lines 140–187).  The tests `l_isanyvec` and
`l_isanymat` with the casts of `lua_touserdata` are the matches on `vec` and `mat`; a `switch`
without a matching case issues no call.  At line 149 the `lua_Number` is converted to the
`GLfloat` parameter of `glUniform1f`. -/
def l_shader___newindex (E : Env) (st : State) (s : shader) (name : String)
    (value : LuaValue) : Except Error Unit × State :=
  match get_uniform_location E st s name with
  | (.error e, st1) => (.error e, st1)
  | (.ok location, st1) =>
    let st2 := glUseProgram st1 s.id
    if lua_isnumber E value then
      (.ok (), use_active (glCall st2 (.uniform1f location (E.narrow (lua_tonumber E value)))))
    else
      match value with
      | .vec v =>
        if v.dim = 2 then (.ok (), use_active (glCall st2 (.uniform2fv location 1 v.v)))
        else if v.dim = 3 then (.ok (), use_active (glCall st2 (.uniform3fv location 1 v.v)))
        else if v.dim = 4 then (.ok (), use_active (glCall st2 (.uniform4fv location 1 v.v)))
        else (.ok (), use_active st2)
      | .mat m =>
        if m.rows = 2 then
          (.ok (), use_active (glCall st2 (.uniformMatrix2fv location 1 false m.m)))
        else if m.rows = 3 then
          (.ok (), use_active (glCall st2 (.uniformMatrix3fv location 1 false m.m)))
        else if m.rows = 4 then
          (.ok (), use_active (glCall st2 (.uniformMatrix4fv location 1 false m.m)))
        else (.ok (), use_active st2)
      | _ => (.error (.UnsupportedUniformType name (lua_typename value)), use_active st2)

/-- As `luaL_newmetatable(L, name); lua_newtable(L); lua_rawseti(L, -2, id);` (lines 277–279
and 283–285): the registry entry is created if absent, and a new empty table is stored in it
under the program id converted to the `int` key of `lua_rawseti`. -/
def register_program (r : Option Registry) (id : GLuint) : Option Registry :=
  some ((r.getD []).rawset (to_int id) [])

/-- The function `l_shader_new` (lines 189–289). -/
def l_shader_new (E : Env) (st : State) (arg1 arg2 : LuaValue) : Except Error shader × State :=
  if ¬ E.context_available then (.error .NoContext, st)
  else if ¬ lua_isstring arg1 then (.error (.TypeError 1 "Vertex shader code"), st)
  else if ¬ lua_isstring arg2 then (.error (.TypeError 2 "Fragment shader code"), st)
  else
    let vs_source := lua_tostring E arg1
    let fs_source := lua_tostring E arg2
    let vs := E.glCreateShader st.log .GL_VERTEX_SHADER
    let st1 := glCall st (.createShader .GL_VERTEX_SHADER vs)
    let st2 := glCall st1 (.shaderSource vs vs_source)
    let st3 := glCall st2 (.compileShader vs)
    let vs_status := E.compileStatus st3.log vs
    let st4 := glCall st3 (.getShaderiv vs .GL_COMPILE_STATUS)
    if ¬ vs_status then
      let st5 := glCall st4 (.getShaderiv vs .GL_INFO_LOG_LENGTH)
      let log := E.shaderInfoLog st5.log vs
      let st6 := glCall st5 (.getShaderInfoLog vs)
      (.error (.CompileError .GL_VERTEX_SHADER log), glCall st6 (.deleteShader vs))
    else
      let fs := E.glCreateShader st4.log .GL_FRAGMENT_SHADER
      let st5 := glCall st4 (.createShader .GL_FRAGMENT_SHADER fs)
      let st6 := glCall st5 (.shaderSource fs fs_source)
      let st7 := glCall st6 (.compileShader fs)
      let fs_status := E.compileStatus st7.log fs
      let st8 := glCall st7 (.getShaderiv fs .GL_COMPILE_STATUS)
      if ¬ fs_status then
        let st9 := glCall st8 (.getShaderiv fs .GL_INFO_LOG_LENGTH)
        let log := E.shaderInfoLog st9.log fs
        let st10 := glCall st9 (.getShaderInfoLog fs)
        let st11 := glCall st10 (.deleteShader fs)
        (.error (.CompileError .GL_FRAGMENT_SHADER log), glCall st11 (.deleteShader vs))
      else
        let program := E.glCreateProgram st8.log
        let st9 := glCall st8 (.createProgram program)
        let st10 := glCall st9 (.attachShader program vs)
        let st11 := glCall st10 (.attachShader program fs)
        let st12 := glCall st11 (.linkProgram program)
        let status := E.linkStatus st12.log program
        let st13 := glCall st12 (.getProgramiv program .GL_LINK_STATUS)
        if ¬ status then
          let st14 := glCall st13 (.getProgramiv program .GL_INFO_LOG_LENGTH)
          let log := E.programInfoLog st14.log program
          let st15 := glCall st14 (.getProgramInfoLog program)
          let st16 := glCall st15 (.deleteProgram program)
          let st17 := glCall st16 (.deleteShader fs)
          (.error (.LinkError log), glCall st17 (.deleteShader vs))
        else
          let st14 := glCall st13 (.deleteShader fs)
          let st15 := glCall st14 (.deleteShader vs)
          (.ok ⟨program⟩,
            { st15 with
              uniforms := register_program st15.uniforms program
              attributes := register_program st15.attributes program })

/-! ## A concrete driver, for evaluating the functions on explicit inputs -/

/-- The components an upload call stores, if it is an upload to the given location. -/
def GLCall.stored (c : GLCall) (location : GLint) : Option (List GLfloat) :=
  match c with
  | .uniform1f l x => if l = location then some [x] else none
  | .uniform2fv l _ v => if l = location then some (v.take 2) else none
  | .uniform3fv l _ v => if l = location then some (v.take 3) else none
  | .uniform4fv l _ v => if l = location then some (v.take 4) else none
  | .uniformMatrix2fv l _ _ v => if l = location then some (v.take 4) else none
  | .uniformMatrix3fv l _ _ v => if l = location then some (v.take 9) else none
  | .uniformMatrix4fv l _ _ v => if l = location then some (v.take 16) else none
  | _ => none

/-- The components last uploaded to a location while the program was current, read from a
log given latest call first. -/
def uniform_store (program : GLuint) (location : GLint) : List Event → List GLfloat
  | [] => []
  | e :: rest =>
    if e.current = program then
      match e.call.stored location with
      | some xs => xs
      | none => uniform_store program location rest
    else uniform_store program location rest

/-- Whether the source last given to a stage object differs from the text "broken", read
from a log given latest call first. -/
def source_ok (sh : GLuint) : List Event → Bool
  | [] => true
  | e :: rest =>
    match e.call with
    | .shaderSource sh1 src => if sh1 = sh then src != "broken" else source_ok sh rest
    | _ => source_ok sh rest

/-- Whether no source in the log is the text "unlinkable". -/
def sources_link : List Event → Bool
  | [] => true
  | e :: rest =>
    match e.call with
    | .shaderSource _ src => src != "unlinkable" && sources_link rest
    | _ => sources_link rest

/-- A small driver: uniforms `u` and `mvp`, attributes `position` and `color`; a stage
compiles unless its source is "broken", a program links unless a source is "unlinkable";
object names are handed out in sequence; reading a uniform gives what was last uploaded.
Of the texts used below the runtime converts "2.5" to a number and no other.  The conversion
to float rounds the double nearest 0.1, which is 3602879701896397 * 2^-55, to the float
nearest it, 13421773 * 2^-27, and is exact on the other numbers used below, all of which a
float represents. -/
def demo : Env where
  glGetUniformLocation := fun _ _ name => if name = "u" then 0 else if name = "mvp" then 1 else -1
  glGetAttribLocation := fun _ _ name =>
    if name = "position" then 0 else if name = "color" then 1 else -1
  glGetUniformfv := fun log program location => uniform_store program location log.reverse
  glCreateShader := fun log _ => log.length + 1
  glCreateProgram := fun log => log.length + 1
  compileStatus := fun log sh => source_ok sh log.reverse
  linkStatus := fun log _ => sources_link log
  shaderInfoLog := fun _ _ => "0:1: syntax error"
  programInfoLog := fun _ _ => "link error"
  context_available := true
  str2d := fun s => if s = "2.5" then some (.dyadic 5 (-1)) else none
  number2str := fun _ => "0"
  narrow := fun x =>
    match x with
    | .nan => .nan
    | .dyadic m e =>
      if m = 3602879701896397 ∧ e = -55 then .dyadic 13421773 (-27) else .dyadic m e

/-- The state right after program 1 was built: both registry entries hold an empty table for
it, no program is active and none is bound. -/
def fresh : State where
  active := none
  uniforms := some [(1, [])]
  attributes := some [(1, [])]
  bound := 0
  log := []

/-! ## Notions the properties are stated with -/

/-- The program the register names, as the driver names it: its id, or 0 for a null
register. -/
def State.registered (st : State) : GLuint :=
  match st.active with
  | some a => a.id
  | none => 0

/-- The value-upload calls. -/
def GLCall.isUpload : GLCall → Bool
  | .uniform1f _ _ => true
  | .uniform2fv _ _ _ => true
  | .uniform3fv _ _ _ => true
  | .uniform4fv _ _ _ => true
  | .uniformMatrix2fv _ _ _ _ => true
  | .uniformMatrix3fv _ _ _ _ => true
  | .uniformMatrix4fv _ _ _ _ => true
  | _ => false

/-- The name-to-location queries. -/
def GLCall.isLocationQuery : GLCall → Bool
  | .getUniformLocation _ _ => true
  | .getAttribLocation _ _ => true
  | _ => false

/-- The number of location queries in a log. -/
def query_count (log : List Event) : Nat :=
  (log.filter (fun e => e.call.isLocationQuery)).length

/-- The number of uploads in a log. -/
def upload_count (log : List Event) : Nat :=
  (log.filter (fun e => e.call.isUpload)).length

/-- The upload the dispatch of lines 148–175 issues for a value at a location, if any. -/
def upload_for (E : Env) (location : GLint) (value : LuaValue) : Option GLCall :=
  if lua_isnumber E value then some (.uniform1f location (E.narrow (lua_tonumber E value)))
  else
    match value with
    | .vec v =>
      if v.dim = 2 then some (.uniform2fv location 1 v.v)
      else if v.dim = 3 then some (.uniform3fv location 1 v.v)
      else if v.dim = 4 then some (.uniform4fv location 1 v.v)
      else none
    | .mat m =>
      if m.rows = 2 then some (.uniformMatrix2fv location 1 false m.m)
      else if m.rows = 3 then some (.uniformMatrix3fv location 1 false m.m)
      else if m.rows = 4 then some (.uniformMatrix4fv location 1 false m.m)
      else none
    | _ => none

/-- The result of `l_shader___newindex` once the location is resolved. -/
def outcome_for (E : Env) (name : String) (value : LuaValue) : Except Error Unit :=
  if lua_isnumber E value then .ok ()
  else
    match value with
    | .vec _ => .ok ()
    | .mat _ => .ok ()
    | _ => .error (.UnsupportedUniformType name (lua_typename value))

/-- The upload the specification prescribes for a value shape: a plain number gives the
scalar float upload, which is the upload of the number converted to a float, a vector of
dimension 2, 3 or 4 the vector upload of that rank with count 1, a matrix of 2, 3 or 4 rows
the square-matrix upload of that rank with count 1 and no transposition; the component buffer
is passed as it is. -/
def spec_upload (narrow : lua_Number → GLfloat) (location : GLint) : LuaValue → Option GLCall
  | .number x => some (.uniform1f location (narrow x))
  | .vec ⟨2, buf⟩ => some (.uniform2fv location 1 buf)
  | .vec ⟨3, buf⟩ => some (.uniform3fv location 1 buf)
  | .vec ⟨4, buf⟩ => some (.uniform4fv location 1 buf)
  | .mat ⟨2, buf⟩ => some (.uniformMatrix2fv location 1 false buf)
  | .mat ⟨3, buf⟩ => some (.uniformMatrix3fv location 1 false buf)
  | .mat ⟨4, buf⟩ => some (.uniformMatrix4fv location 1 false buf)
  | _ => none

/-- The calls that create a driver object. -/
def GLCall.isCreate : GLCall → Bool
  | .createShader _ _ => true
  | .createProgram _ => true
  | _ => false

/-- The calls that delete a driver object. -/
def GLCall.isDelete : GLCall → Bool
  | .deleteShader _ => true
  | .deleteProgram _ => true
  | _ => false

/-- The number of objects created in a log. -/
def created (log : List Event) : Nat :=
  (log.filter (fun e => e.call.isCreate)).length

/-- The number of objects deleted in a log. -/
def deleted (log : List Event) : Nat :=
  (log.filter (fun e => e.call.isDelete)).length

/-- The number of live driver objects, as a driver that counts creations and deletions
reports it. -/
def live_objects (log : List Event) : Int :=
  (created log : Int) - (deleted log : Int)

/-- The location cached for a name of a program in the registry of a kind, if any. -/
def State.lookup (st : State) (kind : Kind) (id : GLuint) (name : String) : Option GLint :=
  match st.registry kind with
  | none => none
  | some reg =>
    match Table.rawget reg (id : Int) with
    | none => none
    | some tbl => Table.rawget tbl name

/-- The operations of the module on a built program, as a caller issues them. `readUniform`
is the uniform read block run on its own. -/
inductive Op where
  | resolve (p : shader) (name : String) (kind : Kind)
  | getUniform (p : shader) (name : String)
  | readUniform (p : shader) (name : String)
  | setUniform (p : shader) (name : String) (value : LuaValue)
  | setAttribute (p : shader) (name : String) (arg3 : Option vbo) (arg4 arg5 : Option Int)
  | setActive (arg : Option shader)

/-- The state an operation leaves, whether it returned or raised; `none` when a loop of
`l_shader_attribute` has not left within the fuel. -/
def Op.run (E : Env) (fuel : Nat) (st : State) : Op → Option State
  | .resolve p name kind => some (get_location E st p name kind).2
  | .getUniform p name => some (l_shader___index st (some p) name).2
  | .readUniform p name => some (l_shader___index_uniform E st p name).2
  | .setUniform p name value => some (l_shader___newindex E st p name value).2
  | .setAttribute p name arg3 arg4 arg5 =>
    match l_shader_attribute E fuel st p name arg3 arg4 arg5 with
    | none => none
    | some r => some r.2
  | .setActive arg => some (l_shader_set st arg).2

/-- A sequence of operations, each run in the state the one before left. -/
def run_ops (E : Env) (fuel : Nat) : State → List Op → Option State
  | st, [] => some st
  | st, op :: ops =>
    match op.run E fuel st with
    | none => none
    | some st1 => run_ops E fuel st1 ops

/-! ## Bound normalisation (lines 86–92) -/

/-- With a positive step the loop leaves after at most `(1 - b).toNat + 1` tests; its result
is `b` when `b` is positive, and otherwise `b` plus the least positive multiple of the step
that makes it positive. -/
theorem while_nonpositive_spec (rs : Int) (hrs : 0 ≤ rs) :
    ∀ (n : Nat) (b : Int), (1 - b).toNat ≤ n →
      ∃ r : Int, (∀ fuel : Nat, n + 1 ≤ fuel → while_nonpositive fuel rs b = some r) ∧
        (0 < b → r = b) ∧
        (b ≤ 0 → ∃ k : Int, 1 ≤ k ∧ r = b + k * (rs + 1) ∧ 0 < r ∧
          ∀ j : Int, 1 ≤ j → j < k → b + j * (rs + 1) ≤ 0) := by
  intro n
  induction n with
  | zero =>
    intro b hb
    have hpos : 0 < b := by omega
    refine ⟨b, ?_, fun _ => rfl, fun h => absurd h (by omega)⟩
    intro fuel hfuel
    obtain ⟨f, rfl⟩ : ∃ f, fuel = f + 1 := ⟨fuel - 1, by omega⟩
    simp [while_nonpositive, hpos]
  | succ n ih =>
    intro b hb
    by_cases hpos : 0 < b
    · refine ⟨b, ?_, fun _ => rfl, fun h => absurd h (by omega)⟩
      intro fuel hfuel
      obtain ⟨f, rfl⟩ : ∃ f, fuel = f + 1 := ⟨fuel - 1, by omega⟩
      simp [while_nonpositive, hpos]
    · have hb0 : b ≤ 0 := by omega
      obtain ⟨r, hrun, hr1, hr2⟩ := ih (b + (rs + 1)) (by omega)
      refine ⟨r, ?_, fun h => absurd h hpos, fun _ => ?_⟩
      · intro fuel hfuel
        obtain ⟨f, rfl⟩ : ∃ f, fuel = f + 1 := ⟨fuel - 1, by omega⟩
        simp only [while_nonpositive, hb0, if_true]
        exact hrun f (by omega)
      · by_cases hnext : 0 < b + (rs + 1)
        · have hr : r = b + (rs + 1) := hr1 hnext
          refine ⟨1, le_refl _, by rw [hr]; ring, by omega, ?_⟩
          intro j h1 h2
          omega
        · obtain ⟨k, hk1, hk2, hk3, hk4⟩ := hr2 (by omega)
          refine ⟨k + 1, by omega, by rw [hk2]; ring, hk3, ?_⟩
          intro j h1 h2
          by_cases hj : j = 1
          · subst hj
            omega
          · have := hk4 (j - 1) (by omega) (by omega)
            have e : b + (rs + 1) + (j - 1) * (rs + 1) = b + j * (rs + 1) := by ring
            omega

/-- For a bound that is not positive, the result of the loop lies in `1 .. rs + 1`, and it is
`rs + 1` exactly for the multiples of `rs + 1`. -/
theorem while_nonpositive_range (rs b r k : Int) (hb : b ≤ 0) (hk : 1 ≤ k)
    (hr : r = b + k * (rs + 1)) (hpos : 0 < r)
    (hleast : ∀ j : Int, 1 ≤ j → j < k → b + j * (rs + 1) ≤ 0) :
    1 ≤ r ∧ r ≤ rs + 1 ∧ (r = rs + 1 ↔ (rs + 1) ∣ b) := by
  have hle : r ≤ rs + 1 := by
    by_cases h1 : k = 1
    · subst h1
      omega
    · have := hleast (k - 1) (by omega) (by omega)
      have e : b + (k - 1) * (rs + 1) + (rs + 1) = b + k * (rs + 1) := by ring
      omega
  refine ⟨by omega, hle, ?_, ?_⟩
  · intro h
    refine ⟨1 - k, ?_⟩
    have e : (rs + 1) * (1 - k) = (rs + 1) - k * (rs + 1) := by ring
    omega
  · rintro ⟨c, hc⟩
    have hdiv : (rs + 1) ∣ r := ⟨c + k, by rw [hr, hc]; ring⟩
    have := Int.le_of_dvd hpos hdiv
    omega

theorem get_location_no_registry (E : Env) (st : State) (s : shader) (name : String)
    (kind : Kind) (hreg : st.registry kind = none) :
    get_location E st s name kind = (.error .InvalidAccess, st) := by
  simp [get_location, hreg]

theorem get_location_no_table (E : Env) (st : State) (s : shader) (name : String)
    (kind : Kind) (reg : Registry) (hreg : st.registry kind = some reg)
    (hprog : Table.rawget reg s.id = none) :
    get_location E st s name kind = (.error .InvalidAccess, st) := by
  simp [get_location, hreg, hprog]

/-- A cache hit: the stored location is returned and the state is untouched. -/
theorem get_location_hit (E : Env) (st : State) (s : shader) (name : String)
    (kind : Kind) (reg : Registry) (tbl : Table String GLint) (l : GLint)
    (hreg : st.registry kind = some reg) (hprog : Table.rawget reg s.id = some tbl)
    (hname : Table.rawget tbl name = some l) :
    get_location E st s name kind = (.ok l, st) := by
  simp [get_location, hreg, hprog, hname]

/-- A cache miss: the driver is queried; the answer -1 is an error, any other answer is
recorded and returned. -/
theorem get_location_miss (E : Env) (st : State) (s : shader) (name : String)
    (kind : Kind) (reg : Registry) (tbl : Table String GLint)
    (hreg : st.registry kind = some reg) (hprog : Table.rawget reg s.id = some tbl)
    (hname : Table.rawget tbl name = none) :
    get_location E st s name kind =
      if E.getter kind st.log s.id name = -1 then
        (.error (.LocationNotFound name), glCall st (kind.query s.id name))
      else
        (.ok (E.getter kind st.log s.id name),
          (glCall st (kind.query s.id name)).setRegistry kind
            (Table.rawset reg s.id (Table.rawset tbl name (E.getter kind st.log s.id name)))) := by
  simp [get_location, hreg, hprog, hname]

/-- Location resolution leaves the register and the current program alone and adds at most
its own query to the log. -/
theorem get_location_frame (E : Env) (st : State) (s : shader) (name : String) (kind : Kind) :
    (get_location E st s name kind).2.active = st.active ∧
    (get_location E st s name kind).2.bound = st.bound ∧
    ((get_location E st s name kind).2.log = st.log ∨
      (get_location E st s name kind).2.log = st.log ++ [⟨kind.query s.id name, st.bound⟩]) := by
  cases hreg : st.registry kind with
  | none => simp [get_location_no_registry E st s name kind hreg]
  | some reg =>
    cases hprog : Table.rawget reg s.id with
    | none => simp [get_location_no_table E st s name kind reg hreg hprog]
    | some tbl =>
      cases hname : Table.rawget tbl name with
      | some l => simp [get_location_hit E st s name kind reg tbl l hreg hprog hname]
      | none =>
        rw [get_location_miss E st s name kind reg tbl hreg hprog hname]
        by_cases hl : E.getter kind st.log s.id name = -1
        · simp [hl, glCall]
        · cases kind <;> simp [hl, glCall, State.setRegistry]

/-- The errors of location resolution. -/
theorem get_location_error (E : Env) (st : State) (s : shader) (name : String) (kind : Kind)
    (e : Error) (h : (get_location E st s name kind).1 = .error e) :
    e = .InvalidAccess ∨ e = .LocationNotFound name := by
  cases hreg : st.registry kind with
  | none =>
    rw [get_location_no_registry E st s name kind hreg] at h
    simp at h
    exact Or.inl h.symm
  | some reg =>
    cases hprog : Table.rawget reg s.id with
    | none =>
      rw [get_location_no_table E st s name kind reg hreg hprog] at h
      simp at h
      exact Or.inl h.symm
    | some tbl =>
      cases hname : Table.rawget tbl name with
      | some l =>
        rw [get_location_hit E st s name kind reg tbl l hreg hprog hname] at h
        simp at h
      | none =>
        rw [get_location_miss E st s name kind reg tbl hreg hprog hname] at h
        by_cases hl : E.getter kind st.log s.id name = -1
        · simp [hl] at h
          exact Or.inr h.symm
        · simp [hl] at h

/-- Inside the range of `int` the conversion to `int` changes nothing. -/
theorem to_int_of_range (x : Int) (h1 : -2147483648 ≤ x) (h2 : x < 2147483648) :
    to_int x = x := by
  unfold to_int
  omega

/-- The conversion to `int` lands in the range of `int`. -/
theorem to_int_range (x : Int) : -2147483648 ≤ to_int x ∧ to_int x < 2147483648 := by
  unfold to_int
  omega

/-- The value of `luaL_optint` lies in the range of `int`. -/
theorem luaL_optint_range (arg : Option Int) (d : Int) :
    -2147483648 ≤ luaL_optint arg d ∧ luaL_optint arg d < 2147483648 := by
  cases arg <;> exact to_int_range _

/-- What the binder does on the enable path, for a buffer whose record size is an `int`
below `INT_MAX` and a resolvable name: both loops leave, with bounds `low` and `high` inside
1 .. `INT_MAX`, and the result is that of lines 94–104 for these bounds.  `low` is the
normalisation of the `int` of line 86, `high` that of the `int` of line 90: a positive bound
stays, and to any other the step record_size + 1 is added the least number of times that
makes it positive. -/
theorem attribute_bounds (E : Env) (st st1 : State) (s : shader) (name : String) (v : vbo)
    (arg4 arg5 : Option Int) (location : GLint)
    (hrs0 : 0 ≤ v.record_size) (hrs1 : v.record_size < 2147483647)
    (hloc : get_attribute_location E st s name = (.ok location, st1)) :
    ∃ (low high : Int) (fuel0 : Nat),
      (∀ fuel : Nat, fuel0 ≤ fuel →
        while_nonpositive fuel v.record_size (luaL_optint arg4 1) = some low ∧
        while_nonpositive fuel v.record_size (luaL_optint arg5 v.record_size) = some high ∧
        l_shader_attribute E fuel st s name (some v) arg4 arg5 =
          some (attribute_range st1 s v location low high)) ∧
      (1 ≤ low ∧ low < 2147483648 ∧ 1 ≤ high ∧ high < 2147483648) ∧
      (0 < luaL_optint arg4 1 → low = luaL_optint arg4 1) ∧
      (luaL_optint arg4 1 ≤ 0 →
        ∃ k : Int, 1 ≤ k ∧ low = luaL_optint arg4 1 + k * (v.record_size + 1) ∧ 0 < low ∧
          ∀ j : Int, 1 ≤ j → j < k → luaL_optint arg4 1 + j * (v.record_size + 1) ≤ 0) ∧
      (0 < luaL_optint arg5 v.record_size → high = luaL_optint arg5 v.record_size) ∧
      (luaL_optint arg5 v.record_size ≤ 0 →
        ∃ k : Int, 1 ≤ k ∧
          high = luaL_optint arg5 v.record_size + k * (v.record_size + 1) ∧ 0 < high ∧
          ∀ j : Int, 1 ≤ j → j < k →
            luaL_optint arg5 v.record_size + j * (v.record_size + 1) ≤ 0) := by
  obtain ⟨low, hlow, hl1, hl2⟩ := while_nonpositive_spec v.record_size hrs0
    (1 - luaL_optint arg4 1).toNat (luaL_optint arg4 1) (le_refl _)
  obtain ⟨high, hhigh, hh1, hh2⟩ := while_nonpositive_spec v.record_size hrs0
    (1 - luaL_optint arg5 v.record_size).toNat (luaL_optint arg5 v.record_size) (le_refl _)
  have r4 := luaL_optint_range arg4 1
  have r5 := luaL_optint_range arg5 v.record_size
  have hlowr : 1 ≤ low ∧ low < 2147483648 := by
    by_cases hc : 0 < luaL_optint arg4 1
    · have := hl1 hc
      omega
    · obtain ⟨k, hk1, hk2, hk3, hk4⟩ := hl2 (by omega)
      have := while_nonpositive_range v.record_size _ low k (by omega) hk1 hk2 hk3 hk4
      omega
  have hhighr : 1 ≤ high ∧ high < 2147483648 := by
    by_cases hc : 0 < luaL_optint arg5 v.record_size
    · have := hh1 hc
      omega
    · obtain ⟨k, hk1, hk2, hk3, hk4⟩ := hh2 (by omega)
      have := while_nonpositive_range v.record_size _ high k (by omega) hk1 hk2 hk3 hk4
      omega
  refine ⟨low, high, max ((1 - luaL_optint arg4 1).toNat + 1)
    ((1 - luaL_optint arg5 v.record_size).toNat + 1), ?_,
    ⟨hlowr.1, hlowr.2, hhighr.1, hhighr.2⟩, hl1, hl2, hh1, hh2⟩
  intro fuel hfuel
  have hl := hlow fuel (le_trans (le_max_left _ _) hfuel)
  have hh := hhigh fuel (le_trans (le_max_right _ _) hfuel)
  refine ⟨hl, hh, ?_⟩
  simp only [l_shader_attribute, hloc, hl, hh]

/-- C10, refuted as stated: with record_size = 3 the bound 0 is normalised to 4, which is
not a column of a record of three; the binder, given low = high = 0, describes the attribute
at the byte offset 12 of records of 12 bytes. -/
theorem C10_zero_bound_out_of_range :
    (1 : Int) ≤ 3 ∧ (0 : Int) ≤ 0 ∧ while_nonpositive 2 3 0 = some 4 ∧
      ¬ ((1 : Int) ≤ 4 ∧ (4 : Int) ≤ 3) ∧
    l_shader_attribute demo 2 fresh ⟨1⟩ "position" (some ⟨7, 3⟩) (some 0) (some 0) =
      some (.ok ⟨1⟩,
        { fresh with
          attributes := some [(1, [("position", 0)])]
          log := [⟨.getAttribLocation 1 "position", 0⟩, ⟨.enableVertexAttribArray 0, 0⟩,
            ⟨.bindBuffer 7, 0⟩, ⟨.vertexAttribPointer 0 1 12 12, 0⟩] }) := by
  refine ⟨by decide, by decide, by decide, by decide, ?_⟩
  rfl

/-- C10, amended: for a buffer with 1 <= record_size < 2^31 - 1 and a resolvable name, the
binder goes on with bounds low and high such that, for a supplied low (or high) whose
conversion to `int` is c <= 0, the bound r satisfies 1 <= r <= record_size + 1; r is
record_size + 1 exactly when c is a multiple of record_size + 1 (c = 0 included), and
otherwise 1 <= r <= record_size.  A supplied bound b with -2^31 <= b <= 0 is converted to
itself. -/
theorem C10_normalised_bound_range (E : Env) (st st1 : State) (s : shader) (name : String)
    (v : vbo) (arg4 arg5 : Option Int) (location : GLint)
    (hrs0 : 1 ≤ v.record_size) (hrs1 : v.record_size < 2147483647)
    (hloc : get_attribute_location E st s name = (.ok location, st1)) :
    ∃ (low high : Int) (fuel0 : Nat),
      (∀ fuel : Nat, fuel0 ≤ fuel →
        l_shader_attribute E fuel st s name (some v) arg4 arg5 =
          some (attribute_range st1 s v location low high)) ∧
      (∀ b : Int, arg4 = some b → to_int b ≤ 0 →
        1 ≤ low ∧ low ≤ v.record_size + 1 ∧
        (low = v.record_size + 1 ↔ (v.record_size + 1) ∣ to_int b) ∧
        (¬ (v.record_size + 1) ∣ to_int b → low ≤ v.record_size)) ∧
      (∀ b : Int, arg5 = some b → to_int b ≤ 0 →
        1 ≤ high ∧ high ≤ v.record_size + 1 ∧
        (high = v.record_size + 1 ↔ (v.record_size + 1) ∣ to_int b) ∧
        (¬ (v.record_size + 1) ∣ to_int b → high ≤ v.record_size)) ∧
      (∀ b : Int, -2147483648 ≤ b → b ≤ 0 → to_int b = b) := by
  obtain ⟨low, high, fuel0, hrun, _, _, hl2, _, hh2⟩ :=
    attribute_bounds E st st1 s name v arg4 arg5 location (by omega) hrs1 hloc
  have hopt4 : luaL_optint arg4 1 = to_int (arg4.getD 1) := by cases arg4 <;> rfl
  have hopt5 : luaL_optint arg5 v.record_size = to_int (arg5.getD v.record_size) := by
    cases arg5 <;> rfl
  rw [hopt4] at hl2
  rw [hopt5] at hh2
  have hrange : ∀ (c r : Int), c ≤ 0 →
      (c ≤ 0 → ∃ k : Int, 1 ≤ k ∧ r = c + k * (v.record_size + 1) ∧ 0 < r ∧
        ∀ j : Int, 1 ≤ j → j < k → c + j * (v.record_size + 1) ≤ 0) →
      1 ≤ r ∧ r ≤ v.record_size + 1 ∧ (r = v.record_size + 1 ↔ (v.record_size + 1) ∣ c) ∧
        (¬ (v.record_size + 1) ∣ c → r ≤ v.record_size) := by
    intro c r hc h
    obtain ⟨k, hk1, hk2, hk3, hk4⟩ := h hc
    obtain ⟨h1, h2, h3⟩ := while_nonpositive_range v.record_size c r k hc hk1 hk2 hk3 hk4
    refine ⟨h1, h2, h3, ?_⟩
    intro hnd
    have : r ≠ v.record_size + 1 := fun e => hnd (h3.mp e)
    omega
  refine ⟨low, high, fuel0, fun fuel hf => (hrun fuel hf).2.2, ?_, ?_,
    fun b h1 h2 => to_int_of_range b h1 (by omega)⟩
  · intro b hb hc
    subst hb
    simp only [Option.getD_some] at hl2
    exact hrange (to_int b) low hc hl2
  · intro b hb hc
    subst hb
    simp only [Option.getD_some] at hh2
    exact hrange (to_int b) high hc hh2

/-- C10 amended, at record_size = 3 with low = -5 and high = -1: both bounds are normalised
to the column 3 of the record, and the binder describes the attribute with one component at
the byte offset 8. -/
theorem C10_normalised_bound_range_witness :
    (∃ (low high : Int) (fuel0 : Nat),
      (∀ fuel : Nat, fuel0 ≤ fuel →
        l_shader_attribute demo fuel fresh ⟨1⟩ "position" (some ⟨7, 3⟩) (some (-5))
            (some (-1)) =
          some (attribute_range (get_attribute_location demo fresh ⟨1⟩ "position").2 ⟨1⟩
            ⟨7, 3⟩ 0 low high)) ∧
      (1 ≤ low ∧ low ≤ 3) ∧ (1 ≤ high ∧ high ≤ 3)) ∧
    l_shader_attribute demo 3 fresh ⟨1⟩ "position" (some ⟨7, 3⟩) (some (-5)) (some (-1)) =
      some (.ok ⟨1⟩,
        { fresh with
          attributes := some [(1, [("position", 0)])]
          log := [⟨.getAttribLocation 1 "position", 0⟩, ⟨.enableVertexAttribArray 0, 0⟩,
            ⟨.bindBuffer 7, 0⟩, ⟨.vertexAttribPointer 0 1 12 8, 0⟩] }) := by
  refine ⟨?_, rfl⟩
  obtain ⟨low, high, fuel0, hrun, h4, h5, _⟩ :=
    C10_normalised_bound_range demo fresh
      (get_attribute_location demo fresh ⟨1⟩ "position").2 ⟨1⟩ "position" ⟨7, 3⟩
      (some (-5)) (some (-1)) 0 (by decide) (by decide) rfl
  obtain ⟨a1, _, _, a4⟩ := h4 (-5) rfl (by decide)
  obtain ⟨b1, _, _, b4⟩ := h5 (-1) rfl (by decide)
  exact ⟨low, high, fuel0, hrun, ⟨a1, a4 (by decide)⟩, ⟨b1, b4 (by decide)⟩⟩

/-- C4, refuted as stated: for a buffer with record_size = 2^30 the byte stride 4 * 2^30 does
not fit the `GLsizei` parameter; with low = high = 1 the attribute is described with the
stride 0. -/
theorem C4_stride_wraps :
    (1 : Int) ≤ 1073741824 ∧ (0 : Int) ≠ 4 * 1073741824 ∧
    l_shader_attribute demo 1 fresh ⟨1⟩ "position" (some ⟨7, 1073741824⟩) (some 1) (some 1) =
      some (.ok ⟨1⟩,
        { fresh with
          attributes := some [(1, [("position", 0)])]
          log := [⟨.getAttribLocation 1 "position", 0⟩, ⟨.enableVertexAttribArray 0, 0⟩,
            ⟨.bindBuffer 7, 0⟩, ⟨.vertexAttribPointer 0 1 0 0, 0⟩] }) := by
  refine ⟨by decide, by decide, ?_⟩
  rfl

/-- C4, amended: for a buffer with record_size >= 1 whose byte stride 4 * record_size is below
2^31 and a resolvable attribute name, both bounds, converted to `int`, are normalised (to low
and high, for every large enough fuel); with span = high - low + 1 in 1..4 the binder
enables the attribute, binds the buffer id and describes the attribute with span components,
stride 4 * record_size and offset 4 * (low - 1), in that order and nothing else; with
span <= 0 or span > 4 it fails with InvalidAttributeRange low high in the state location
resolution left, whose log holds at most the location query beyond the old one. -/
theorem C4_attribute_binding (E : Env) (st st1 : State) (s : shader) (name : String)
    (v : vbo) (arg4 arg5 : Option Int) (location : GLint) (hrs : 1 ≤ v.record_size)
    (hstride : 4 * v.record_size < 2147483648)
    (hloc : get_attribute_location E st s name = (.ok location, st1)) :
    (st1.log = st.log ∨ st1.log = st.log ++ [⟨.getAttribLocation s.id name, st.bound⟩]) ∧
    (0 ≤ location → location < 4294967296 → (to_GLuint location : Int) = location) ∧
    ∃ (low high : Int) (fuel0 : Nat), ∀ fuel : Nat, fuel0 ≤ fuel →
      while_nonpositive fuel v.record_size (to_int (arg4.getD 1)) = some low ∧
      while_nonpositive fuel v.record_size (to_int (arg5.getD v.record_size)) = some high ∧
      (1 ≤ high - low + 1 → high - low + 1 ≤ 4 →
        l_shader_attribute E fuel st s name (some v) arg4 arg5 =
          some (.ok s, { st1 with log := st1.log ++
            [⟨.enableVertexAttribArray (to_GLuint location), st1.bound⟩,
             ⟨.bindBuffer v.id, st1.bound⟩,
             ⟨.vertexAttribPointer (to_GLuint location) (high - low + 1)
                (4 * v.record_size) (4 * (low - 1)), st1.bound⟩] })) ∧
      (high - low + 1 ≤ 0 ∨ 4 < high - low + 1 →
        l_shader_attribute E fuel st s name (some v) arg4 arg5 =
          some (.error (.InvalidAttributeRange low high), st1)) := by
  refine ⟨?_, ?_, ?_⟩
  · have h := (get_location_frame E st s name .attribute).2.2
    unfold get_attribute_location at hloc
    rw [hloc] at h
    exact h
  · intro h1 h2
    unfold to_GLuint
    rw [Int.emod_eq_of_lt h1 h2]
    exact Int.toNat_of_nonneg h1
  · obtain ⟨low, high, fuel0, hrun, ⟨hl1, hl2, _, _⟩, _⟩ :=
      attribute_bounds E st st1 s name v arg4 arg5 location (by omega) (by omega) hloc
    have hopt4 : luaL_optint arg4 1 = to_int (arg4.getD 1) := by cases arg4 <;> rfl
    have hopt5 : luaL_optint arg5 v.record_size = to_int (arg5.getD v.record_size) := by
      cases arg5 <;> rfl
    have estride : to_int (to_size_t (4 * to_size_t v.record_size)) = 4 * v.record_size := by
      unfold to_int to_size_t
      omega
    have eoffset : to_size_t (4 * to_size_t (low - 1)) = 4 * (low - 1) := by
      unfold to_size_t
      omega
    refine ⟨low, high, fuel0, ?_⟩
    intro fuel hfuel
    obtain ⟨hl, hh, hres⟩ := hrun fuel hfuel
    rw [hopt4] at hl
    rw [hopt5] at hh
    rw [hres]
    refine ⟨hl, hh, ?_, ?_⟩
    · intro h1 h2
      have hc : ¬ (high - low + 1 ≤ 0 ∨ high - low + 1 > 4) := by omega
      simp [attribute_range, hc, glCall, estride, eoffset]
    · intro h
      have hc : (high - low + 1 ≤ 0 ∨ high - low + 1 > 4) := by omega
      simp only [attribute_range]
      rw [if_pos hc]

/-! ## Uniform writes (lines 140–187) -/

/-- Once the location is resolved, a uniform write binds the target program, issues the
upload of the value if it has one, and runs the restore statement. -/
theorem newindex_resolved (E : Env) (st st1 : State) (s : shader) (name : String)
    (value : LuaValue) (location : GLint)
    (hloc : get_uniform_location E st s name = (.ok location, st1)) :
    l_shader___newindex E st s name value =
      (outcome_for E name value,
        use_active (match upload_for E location value with
          | some c => glCall (glUseProgram st1 s.id) c
          | none => glUseProgram st1 s.id)) := by
  unfold l_shader___newindex outcome_for upload_for
  rw [hloc]
  by_cases hnum : lua_isnumber E value = true
  · simp [hnum]
  · cases value <;> simp [hnum] <;> split_ifs <;> rfl

/-- A failed location resolution is the result of the uniform write. -/
theorem newindex_unresolved (E : Env) (st st1 : State) (s : shader) (name : String)
    (value : LuaValue) (e : Error)
    (hloc : get_uniform_location E st s name = (.error e, st1)) :
    l_shader___newindex E st s name value = (.error e, st1) := by
  unfold l_shader___newindex
  rw [hloc]

/-- The log entries of the restore statement, issued while `current` is bound. -/
theorem newindex_state (E : Env) (st st1 : State) (s : shader) (name : String)
    (value : LuaValue) (location : GLint)
    (hloc : get_uniform_location E st s name = (.ok location, st1)) :
    (l_shader___newindex E st s name value).2 =
      { st1 with
        bound := (match st1.active with
          | some a => a.id
          | none => s.id)
        log := st1.log ++ [⟨.useProgram s.id, st1.bound⟩] ++
          (match upload_for E location value with
            | some c => [⟨c, s.id⟩]
            | none => []) ++
          (match st1.active with
            | some a => [⟨.useProgram a.id, s.id⟩]
            | none => []) } := by
  rw [newindex_resolved E st st1 s name value location hloc]
  cases upload_for E location value <;> cases hact : st1.active <;>
    simp [use_active, glUseProgram, glCall, hact]

/-- What `get_uniform_location` returns, with the frame of the state it returns. -/
theorem uniform_location_frame (E : Env) (st st1 : State) (s : shader) (name : String)
    (r : Except Error GLint) (hloc : get_uniform_location E st s name = (r, st1)) :
    st1.active = st.active ∧ st1.bound = st.bound ∧
    (st1.log = st.log ∨ st1.log = st.log ++ [⟨.getUniformLocation s.id name, st.bound⟩]) := by
  have h := get_location_frame E st s name .uniform
  unfold get_uniform_location at hloc
  rw [hloc] at h
  exact h

/-- The outcome after a resolved location is success or UnsupportedUniformType. -/
theorem outcome_for_cases (E : Env) (name : String) (value : LuaValue) :
    outcome_for E name value = .ok () ∨
    outcome_for E name value = .error (.UnsupportedUniformType name (lua_typename value)) := by
  unfold outcome_for
  by_cases hnum : lua_isnumber E value = true
  · simp [hnum]
  · cases value <;> simp [hnum]

/-- The upload of the code is the upload the specification prescribes, for the shapes the
specification names. -/
theorem spec_upload_sound (E : Env) (name : String) (location : GLint) (value : LuaValue)
    (c : GLCall) (h : spec_upload E.narrow location value = some c) :
    upload_for E location value = some c ∧ outcome_for E name value = .ok () ∧
      c.isUpload = true := by
  unfold spec_upload at h
  split at h <;> simp at h <;> subst h <;>
    simp [upload_for, outcome_for, lua_isnumber, lua_tonumber, GLCall.isUpload]

/-- C1, refuted as stated: with a null register and no program bound, a successful write to
program 1 leaves program 1 bound while the register is still null. -/
theorem C1_null_register_left_bound :
    fresh.bound = fresh.registered ∧
    (l_shader___newindex demo fresh ⟨1⟩ "u" (.number (.dyadic 5 (-1)))).1 = .ok () ∧
    (l_shader___newindex demo fresh ⟨1⟩ "u" (.number (.dyadic 5 (-1)))).2.active = none ∧
    (l_shader___newindex demo fresh ⟨1⟩ "u" (.number (.dyadic 5 (-1)))).2.bound = 1 ∧
    (l_shader___newindex demo fresh ⟨1⟩ "u" (.number (.dyadic 5 (-1)))).2.bound ≠
      (l_shader___newindex demo fresh ⟨1⟩ "u" (.number (.dyadic 5 (-1)))).2.registered := by
  refine ⟨rfl, rfl, rfl, rfl, ?_⟩
  decide

/-- C1, amended: a uniform write never changes the register; if the driver's bound program
equalled the register before the call and the register is non-null, or the call fails with
LocationNotFound, the bound program equals the register afterwards; with a null register a
call that succeeds or fails with UnsupportedUniformType leaves the target program bound. -/
theorem C1_register_restored (E : Env) (st : State) (s : shader) (name : String)
    (value : LuaValue) :
    (l_shader___newindex E st s name value).2.active = st.active ∧
    (st.bound = st.registered →
      (st.active ≠ none ∨
        (l_shader___newindex E st s name value).1 = .error (.LocationNotFound name)) →
      (l_shader___newindex E st s name value).2.bound =
        (l_shader___newindex E st s name value).2.registered) ∧
    (st.active = none →
      ((l_shader___newindex E st s name value).1 = .ok () ∨
        (l_shader___newindex E st s name value).1 =
          .error (.UnsupportedUniformType name (lua_typename value))) →
      (l_shader___newindex E st s name value).2.bound = s.id) := by
  rcases hloc : get_uniform_location E st s name with ⟨r, st1⟩
  obtain ⟨hact, hbound, _⟩ := uniform_location_frame E st st1 s name r hloc
  cases r with
  | error e =>
    rw [newindex_unresolved E st st1 s name value e hloc]
    have hcache : e = .InvalidAccess ∨ e = .LocationNotFound name := by
      apply get_location_error E st s name .uniform e
      have := hloc
      unfold get_uniform_location at this
      rw [this]
    refine ⟨hact, ?_, ?_⟩
    · intro hc _
      simp only [State.registered, hact, hbound]
      exact hc
    · intro _ h
      rcases hcache with rfl | rfl <;> simp at h
  | ok location =>
    rw [newindex_state E st st1 s name value location hloc,
      newindex_resolved E st st1 s name value location hloc]
    refine ⟨hact, ?_, ?_⟩
    · intro _ h
      rcases h with h | h
      · cases hst : st.active with
        | none => exact absurd hst h
        | some a =>
          have h1 : st1.active = some a := by rw [hact, hst]
          simp [State.registered, h1]
      · rcases outcome_for_cases E name value with h3 | h3 <;> simp [h3] at h
    · intro hnone _
      have h1 : st1.active = none := by rw [hact, hnone]
      simp [h1]

/-- C1 amended, with program 2 active and bound: a write to program 1 leaves the register on
program 2 and program 2 bound. -/
theorem C1_register_restored_witness :
    ({ fresh with active := some ⟨2⟩, bound := 2 } : State).bound =
      ({ fresh with active := some ⟨2⟩, bound := 2 } : State).registered ∧
    ({ fresh with active := some ⟨2⟩, bound := 2 } : State).active ≠ none ∧
    (l_shader___newindex demo { fresh with active := some ⟨2⟩, bound := 2 } ⟨1⟩ "u"
      (.number (.dyadic 5 (-1)))).2.bound =
    (l_shader___newindex demo { fresh with active := some ⟨2⟩, bound := 2 } ⟨1⟩ "u"
      (.number (.dyadic 5 (-1)))).2.registered :=
  ⟨rfl, by decide,
    (C1_register_restored demo { fresh with active := some ⟨2⟩, bound := 2 } ⟨1⟩ "u"
      (.number (.dyadic 5 (-1)))).2.1 rfl (Or.inl (by decide))⟩

theorem upload_count_append (a b : List Event) :
    upload_count (a ++ b) = upload_count a + upload_count b := by
  simp [upload_count, List.filter_append]

theorem upload_count_cons (e : Event) (l : List Event) :
    upload_count (e :: l) = (if e.call.isUpload = true then 1 else 0) + upload_count l := by
  unfold upload_count
  by_cases h : e.call.isUpload = true <;> simp [List.filter, h, Nat.add_comm]

theorem upload_count_nil : upload_count [] = 0 := rfl

theorem useProgram_not_upload (p : GLuint) : (GLCall.useProgram p).isUpload = false := rfl

theorem getUniformLocation_not_upload (p : GLuint) (name : String) :
    (GLCall.getUniformLocation p name).isUpload = false := rfl

/-- C3, refuted as stated: the text "2.5" is not a number value, a vector or a matrix, yet a
write of it succeeds and uploads the scalar 2.5. -/
theorem C3_numeric_text_is_uploaded :
    get_uniform_location demo fresh ⟨1⟩ "u" =
      (.ok 0, (get_uniform_location demo fresh ⟨1⟩ "u").2) ∧
    l_isanyvec (.string "2.5") = false ∧ l_isanymat (.string "2.5") = false ∧
    (l_shader___newindex demo fresh ⟨1⟩ "u" (.string "2.5")).1 = .ok () ∧
    (l_shader___newindex demo fresh ⟨1⟩ "u" (.string "2.5")).2.log =
      [⟨.getUniformLocation 1 "u", 0⟩, ⟨.useProgram 1, 0⟩,
       ⟨.uniform1f 0 (.dyadic 5 (-1)), 1⟩] :=
  ⟨rfl, rfl, rfl, rfl, rfl⟩

/-- C3, amended: for a resolvable uniform name and a value that `lua_isnumber` rejects (not a
number and not a text convertible to a number) and that is neither a vector nor a matrix, the
write fails with UnsupportedUniformType carrying the name and the type name of the value, and
the log gains no upload: beyond what location resolution left it holds the bind of the target
program and the restore. -/
theorem C3_unsupported_value (E : Env) (st st1 : State) (s : shader) (name : String)
    (value : LuaValue) (location : GLint)
    (hloc : get_uniform_location E st s name = (.ok location, st1))
    (hnum : lua_isnumber E value = false) (hvec : l_isanyvec value = false)
    (hmat : l_isanymat value = false) :
    (l_shader___newindex E st s name value).1 =
      .error (.UnsupportedUniformType name (lua_typename value)) ∧
    (l_shader___newindex E st s name value).2.log =
      st1.log ++ [⟨.useProgram s.id, st.bound⟩] ++
        (match st.active with
          | some a => [⟨.useProgram a.id, s.id⟩]
          | none => []) ∧
    upload_count (l_shader___newindex E st s name value).2.log = upload_count st.log := by
  obtain ⟨hact, hbound, hlog⟩ := uniform_location_frame E st st1 s name _ hloc
  have hup : upload_for E location value = none := by
    unfold upload_for
    cases value <;> simp_all [l_isanyvec, l_isanymat]
  have hout : outcome_for E name value =
      .error (.UnsupportedUniformType name (lua_typename value)) := by
    unfold outcome_for
    cases value <;> simp_all [l_isanyvec, l_isanymat]
  rw [newindex_state E st st1 s name value location hloc,
    newindex_resolved E st st1 s name value location hloc, hup, hout, hact, hbound]
  refine ⟨rfl, by simp, ?_⟩
  rcases hlog with h | h <;> cases st.active <;>
    simp [h, upload_count_append, upload_count_cons, upload_count_nil,
      useProgram_not_upload, getUniformLocation_not_upload]

/-- C3 amended, for the text "hello": the write fails, naming the uniform and the type
"string", and nothing is uploaded. -/
theorem C3_unsupported_value_witness :
    (l_shader___newindex demo fresh ⟨1⟩ "u" (.string "hello")).1 =
      .error (.UnsupportedUniformType "u" "string") ∧
    upload_count (l_shader___newindex demo fresh ⟨1⟩ "u" (.string "hello")).2.log = 0 :=
  ⟨(C3_unsupported_value demo fresh (get_uniform_location demo fresh ⟨1⟩ "u").2 ⟨1⟩ "u"
      (.string "hello") 0 rfl rfl rfl rfl).1,
   (C3_unsupported_value demo fresh (get_uniform_location demo fresh ⟨1⟩ "u").2 ⟨1⟩ "u"
      (.string "hello") 0 rfl rfl rfl rfl).2.2⟩

/-- C8, refuted as stated: a write of the number 0.1, the double 3602879701896397 * 2^-55,
uploads the float 13421773 * 2^-27, which is not that number: the scalar is converted to
`GLfloat` at the call. -/
theorem C8_scalar_is_narrowed :
    (l_shader___newindex demo fresh ⟨1⟩ "u"
      (.number (.dyadic 3602879701896397 (-55)))).1 = .ok () ∧
    (l_shader___newindex demo fresh ⟨1⟩ "u"
      (.number (.dyadic 3602879701896397 (-55)))).2.log =
      [⟨.getUniformLocation 1 "u", 0⟩, ⟨.useProgram 1, 0⟩,
       ⟨.uniform1f 0 (.dyadic 13421773 (-27)), 1⟩] ∧
    (GLfloat.dyadic 13421773 (-27)).denotes (.dyadic 3602879701896397 (-55)) = false :=
  ⟨rfl, rfl, by decide⟩

/-- C8, amended: for a resolvable uniform name and a value of one of the shapes the
specification names, the write succeeds and the log gains exactly one upload, the one
prescribed for the shape at the resolved location (for a plain number the scalar upload of
the number converted to `GLfloat`), issued while the target program is current: it stands
right after the bind of the target program and is followed only by the restore. -/
theorem C8_upload_dispatch (E : Env) (st st1 : State) (s : shader) (name : String)
    (value : LuaValue) (location : GLint) (c : GLCall)
    (hloc : get_uniform_location E st s name = (.ok location, st1))
    (hshape : spec_upload E.narrow location value = some c) :
    (l_shader___newindex E st s name value).1 = .ok () ∧
    (l_shader___newindex E st s name value).2.log =
      st1.log ++ [⟨.useProgram s.id, st.bound⟩] ++ [⟨c, s.id⟩] ++
        (match st.active with
          | some a => [⟨.useProgram a.id, s.id⟩]
          | none => []) ∧
    (∃ pre post : List Event,
      (l_shader___newindex E st s name value).2.log = st.log ++ pre ++ [⟨c, s.id⟩] ++ post ∧
      (∀ e ∈ pre, e.call.isUpload = false) ∧ (∀ e ∈ post, e.call.isUpload = false)) ∧
    upload_count (l_shader___newindex E st s name value).2.log = upload_count st.log + 1 := by
  obtain ⟨hact, hbound, hlog⟩ := uniform_location_frame E st st1 s name _ hloc
  obtain ⟨hup, hout, hc⟩ := spec_upload_sound E name location value c hshape
  rw [newindex_state E st st1 s name value location hloc,
    newindex_resolved E st st1 s name value location hloc, hup, hout, hact, hbound]
  refine ⟨rfl, by simp, ?_, ?_⟩
  · rcases hlog with h | h
    · refine ⟨[⟨.useProgram s.id, st.bound⟩],
        (match st.active with
          | some a => [⟨.useProgram a.id, s.id⟩]
          | none => []), by simp [h], by simp [GLCall.isUpload], ?_⟩
      cases st.active <;> simp [GLCall.isUpload]
    · refine ⟨[⟨.getUniformLocation s.id name, st.bound⟩, ⟨.useProgram s.id, st.bound⟩],
        (match st.active with
          | some a => [⟨.useProgram a.id, s.id⟩]
          | none => []), by simp [h], by simp [GLCall.isUpload], ?_⟩
      cases st.active <;> simp [GLCall.isUpload]
  · rcases hlog with h | h <;> cases st.active <;>
      simp [h, upload_count_append, upload_count_cons, upload_count_nil,
        useProgram_not_upload, getUniformLocation_not_upload, hc]

/-- C8 amended, for a 3-vector written to the uniform `u` of program 1 while program 2 is
active: one rank-3 vector upload of the buffer, at location 0, with program 1 current; and
for the number 2.5, which a float represents: one scalar upload of 2.5. -/
theorem C8_upload_dispatch_witness :
    (l_shader___newindex demo { fresh with active := some ⟨2⟩, bound := 2 } ⟨1⟩ "u"
      (.vec ⟨3, [.dyadic 1 0, .dyadic 2 0, .dyadic 3 0, .dyadic 0 0]⟩)).2.log =
      [⟨.getUniformLocation 1 "u", 2⟩, ⟨.useProgram 1, 2⟩,
       ⟨.uniform3fv 0 1 [.dyadic 1 0, .dyadic 2 0, .dyadic 3 0, .dyadic 0 0], 1⟩,
       ⟨.useProgram 2, 1⟩] ∧
    (l_shader___newindex demo { fresh with active := some ⟨2⟩, bound := 2 } ⟨1⟩ "u"
      (.number (.dyadic 5 (-1)))).2.log =
      [⟨.getUniformLocation 1 "u", 2⟩, ⟨.useProgram 1, 2⟩,
       ⟨.uniform1f 0 (.dyadic 5 (-1)), 1⟩, ⟨.useProgram 2, 1⟩] ∧
    l_shader___newindex demo { fresh with active := some ⟨2⟩, bound := 2 } ⟨1⟩ "u"
      (.number (.dyadic 5 (-1))) =
      (.ok (),
        { fresh with
          active := some ⟨2⟩
          bound := 2
          uniforms := some [(1, [("u", 0)])]
          log := [⟨.getUniformLocation 1 "u", 2⟩, ⟨.useProgram 1, 2⟩,
            ⟨.uniform1f 0 (.dyadic 5 (-1)), 1⟩, ⟨.useProgram 2, 1⟩] }) :=
  ⟨(C8_upload_dispatch demo { fresh with active := some ⟨2⟩, bound := 2 }
      (get_uniform_location demo { fresh with active := some ⟨2⟩, bound := 2 } ⟨1⟩ "u").2
      ⟨1⟩ "u" (.vec ⟨3, [.dyadic 1 0, .dyadic 2 0, .dyadic 3 0, .dyadic 0 0]⟩) 0
      (.uniform3fv 0 1 [.dyadic 1 0, .dyadic 2 0, .dyadic 3 0, .dyadic 0 0]) rfl rfl).2.1,
   (C8_upload_dispatch demo { fresh with active := some ⟨2⟩, bound := 2 }
      (get_uniform_location demo { fresh with active := some ⟨2⟩, bound := 2 } ⟨1⟩ "u").2
      ⟨1⟩ "u" (.number (.dyadic 5 (-1))) 0 (.uniform1f 0 (.dyadic 5 (-1))) rfl rfl).2.1,
   rfl⟩

/-! ## The location cache (lines 17–47) -/

theorem rawget_rawset_self {κ ν : Type} [DecidableEq κ] (t : Table κ ν) (k : κ) (v : ν) :
    Table.rawget (Table.rawset t k v) k = some v := by
  induction t with
  | nil => simp [Table.rawset, Table.rawget]
  | cons hd tl ih =>
    obtain ⟨k1, v1⟩ := hd
    by_cases h : k1 = k
    · simp [Table.rawset, Table.rawget, h]
    · simp [Table.rawset, Table.rawget, h, ih]

theorem rawget_rawset_ne {κ ν : Type} [DecidableEq κ] (t : Table κ ν) (k k2 : κ) (v : ν)
    (hne : k2 ≠ k) : Table.rawget (Table.rawset t k v) k2 = Table.rawget t k2 := by
  induction t with
  | nil =>
    have : ¬ k = k2 := fun h => hne h.symm
    simp [Table.rawset, Table.rawget, this]
  | cons hd tl ih =>
    obtain ⟨k1, v1⟩ := hd
    by_cases h : k1 = k
    · subst h
      have : ¬ k1 = k2 := fun h => hne h.symm
      simp [Table.rawset, Table.rawget, this]
    · by_cases h2 : k1 = k2
      · subst h2
        simp [Table.rawset, Table.rawget, h]
      · simp [Table.rawset, Table.rawget, h, h2, ih]

/-- C6: for a name that is not in the cache of the program for the kind: if the driver
answers -1, resolve fails with LocationNotFound carrying the name, both caches are as they
were, and a later resolve of the same name queries the driver again; if the driver answers
any other location, resolve returns it and records it under the name in the table of that
program in the registry of that kind, every other name, every other program and the other
registry being as they were. -/
theorem C6_cache_miss (E : Env) (st : State) (s : shader) (name : String) (kind : Kind)
    (reg : Registry) (tbl : Table String GLint)
    (hreg : st.registry kind = some reg) (hprog : Table.rawget reg s.id = some tbl)
    (hname : Table.rawget tbl name = none) :
    (E.getter kind st.log s.id name = -1 →
      (get_location E st s name kind).1 = .error (.LocationNotFound name) ∧
      (get_location E st s name kind).2.uniforms = st.uniforms ∧
      (get_location E st s name kind).2.attributes = st.attributes ∧
      (get_location E st s name kind).2.log = st.log ++ [⟨kind.query s.id name, st.bound⟩] ∧
      (get_location E (get_location E st s name kind).2 s name kind).2.log =
        st.log ++ [⟨kind.query s.id name, st.bound⟩, ⟨kind.query s.id name, st.bound⟩]) ∧
    (E.getter kind st.log s.id name ≠ -1 →
      (get_location E st s name kind).1 = .ok (E.getter kind st.log s.id name) ∧
      (get_location E st s name kind).2.registry kind =
        some (Table.rawset reg s.id (Table.rawset tbl name (E.getter kind st.log s.id name))) ∧
      (get_location E st s name kind).2.lookup kind s.id name =
        some (E.getter kind st.log s.id name) ∧
      (∀ other : String, other ≠ name →
        (get_location E st s name kind).2.lookup kind s.id other =
          st.lookup kind s.id other) ∧
      (∀ (id : GLuint) (other : String), id ≠ s.id →
        (get_location E st s name kind).2.lookup kind id other = st.lookup kind id other) ∧
      (∀ kind2 : Kind, kind2 ≠ kind →
        (get_location E st s name kind).2.registry kind2 = st.registry kind2)) := by
  have hmiss := get_location_miss E st s name kind reg tbl hreg hprog hname
  constructor
  · intro hl
    rw [hmiss, if_pos hl]
    have hreg2 : (glCall st (kind.query s.id name)).registry kind = some reg := by
      cases kind <;> exact hreg
    have hmiss2 := get_location_miss E (glCall st (kind.query s.id name)) s name kind reg tbl
      hreg2 hprog hname
    refine ⟨rfl, rfl, rfl, rfl, ?_⟩
    rw [hmiss2]
    split_ifs <;> cases kind <;> simp [glCall, State.setRegistry]
  · intro hl
    rw [hmiss, if_neg hl]
    refine ⟨rfl, ?_, ?_, ?_, ?_, ?_⟩
    · cases kind <;> rfl
    · cases kind <;>
        simp [State.lookup, State.registry, State.setRegistry, glCall, rawget_rawset_self]
    · intro other hne
      cases kind <;>
        simp [State.lookup, State.registry, State.setRegistry, glCall, rawget_rawset_self,
          rawget_rawset_ne _ _ _ _ hne] <;>
        simp [State.registry] at hreg <;> simp [hreg, hprog]
    · intro id other hne
      have hne2 : (id : Int) ≠ (s.id : Int) := fun e => hne (Int.ofNat_inj.mp e)
      cases kind <;>
        simp [State.lookup, State.registry, State.setRegistry, glCall,
          rawget_rawset_ne _ _ _ _ hne2] <;>
        simp [State.registry] at hreg <;> simp [hreg]
    · intro kind2 hne
      cases kind <;> cases kind2 <;> simp_all [State.registry, State.setRegistry, glCall]

/-- C6 on the fresh state: the attribute `normal` is unknown to the driver, the resolve fails
and caches nothing; the attribute `position` is at location 0, which is recorded. -/
theorem C6_cache_miss_witness :
    ((get_location demo fresh ⟨1⟩ "normal" .attribute).1 =
        .error (.LocationNotFound "normal") ∧
      (get_location demo fresh ⟨1⟩ "normal" .attribute).2.attributes = fresh.attributes) ∧
    ((get_location demo fresh ⟨1⟩ "position" .attribute).1 = .ok 0 ∧
      (get_location demo fresh ⟨1⟩ "position" .attribute).2.registry .attribute =
        some [(1, [("position", 0)])]) :=
  ⟨⟨((C6_cache_miss demo fresh ⟨1⟩ "normal" Kind.attribute ([(1, [])]) ([]) rfl rfl rfl).1 rfl).1,
    ((C6_cache_miss demo fresh ⟨1⟩ "normal" Kind.attribute ([(1, [])]) ([]) rfl rfl rfl).1 rfl).2.2.1⟩,
   ⟨((C6_cache_miss demo fresh ⟨1⟩ "position" Kind.attribute ([(1, [])]) ([]) rfl rfl rfl).2
      (by decide)).1,
    ((C6_cache_miss demo fresh ⟨1⟩ "position" Kind.attribute ([(1, [])]) ([]) rfl rfl rfl).2
      (by decide)).2.1⟩⟩

/-! ## The compile and link pipeline (lines 189–289) -/

theorem live_objects_append (a b : List Event) :
    live_objects (a ++ b) = live_objects a + live_objects b := by
  unfold live_objects created deleted
  simp [List.filter_append]
  omega

/-- A logged call changes the count of live objects by one up for a creation and by one down
for a deletion. -/
theorem live_objects_cons (e : Event) (l : List Event) :
    live_objects (e :: l) =
      (if e.call.isCreate = true then 1 else 0) - (if e.call.isDelete = true then 1 else 0) +
        live_objects l := by
  unfold live_objects created deleted
  by_cases h1 : e.call.isCreate = true <;> by_cases h2 : e.call.isDelete = true <;>
    simp [List.filter, h1, h2] <;> omega

theorem live_objects_nil : live_objects [] = 0 := rfl

/-- The key under which a build stores the tables of a program is the id converted to `int`:
for the id 2^32 - 1 it is -1. -/
theorem register_program_key :
    register_program none 4294967295 = some [(-1, [])] ∧
    register_program (some [(1, [("u", 0)])]) 1 = some [(1, [])] := by
  decide

/-- C7: whatever the arguments and the answers of the driver, the calls a build adds to the
log delete every stage object they create; they delete a program object exactly when the
build fails with LinkError; without a context the build fails with NoContext and adds no
call; and the number of live driver objects after the build is the number before it on every
failure and one more on success. -/
theorem C7_build_releases_objects (E : Env) (st : State) (arg1 arg2 : LuaValue) :
    (∃ extra : List Event,
      (l_shader_new E st arg1 arg2).2.log = st.log ++ extra ∧
      (∀ (t : ShaderType) (id cur : GLuint), ⟨.createShader t id, cur⟩ ∈ extra →
        ∃ cur2 : GLuint, ⟨.deleteShader id, cur2⟩ ∈ extra) ∧
      ((∃ (p cur : GLuint), ⟨.deleteProgram p, cur⟩ ∈ extra) ↔
        ∃ log : String, (l_shader_new E st arg1 arg2).1 = .error (.LinkError log))) ∧
    (E.context_available = false →
      l_shader_new E st arg1 arg2 = (.error .NoContext, st)) ∧
    live_objects (l_shader_new E st arg1 arg2).2.log =
      live_objects st.log +
        (match (l_shader_new E st arg1 arg2).1 with
          | .ok _ => 1
          | .error _ => 0) := by
  refine ⟨?_, ?_, ?_⟩
  · unfold l_shader_new
    dsimp only
    generalize E.glCreateShader st.log ShaderType.GL_VERTEX_SHADER = vs
    generalize E.compileStatus _ vs = vs_ok
    generalize E.shaderInfoLog _ vs = log1
    generalize E.glCreateShader _ ShaderType.GL_FRAGMENT_SHADER = fs
    generalize E.compileStatus _ fs = fs_ok
    generalize E.shaderInfoLog _ fs = log2
    generalize E.glCreateProgram _ = program
    generalize E.linkStatus _ program = link_ok
    generalize E.programInfoLog _ program = log3
    by_cases hctx : E.context_available = true <;>
      by_cases h1 : lua_isstring arg1 = true <;>
      by_cases h2 : lua_isstring arg2 = true <;>
      cases vs_ok <;> cases fs_ok <;> cases link_ok <;>
      simp [hctx, h1, h2, glCall] <;>
      aesop
  · intro h
    simp [l_shader_new, h]
  · unfold l_shader_new
    dsimp only
    generalize E.glCreateShader st.log ShaderType.GL_VERTEX_SHADER = vs
    generalize E.compileStatus _ vs = vs_ok
    generalize E.shaderInfoLog _ vs = log1
    generalize E.glCreateShader _ ShaderType.GL_FRAGMENT_SHADER = fs
    generalize E.compileStatus _ fs = fs_ok
    generalize E.shaderInfoLog _ fs = log2
    generalize E.glCreateProgram _ = program
    generalize E.linkStatus _ program = link_ok
    generalize E.programInfoLog _ program = log3
    by_cases hctx : E.context_available = true <;>
      by_cases h1 : lua_isstring arg1 = true <;>
      by_cases h2 : lua_isstring arg2 = true <;>
      cases vs_ok <;> cases fs_ok <;> cases link_ok <;>
      simp [hctx, h1, h2, glCall, live_objects_append, live_objects_cons, live_objects_nil,
        GLCall.isCreate, GLCall.isDelete]

/-- C7 on the demo driver: a build whose vertex source does not compile fails with
CompileError for the vertex stage and leaves the count of live objects as it was; a build
from two good sources succeeds and leaves one more. -/
theorem C7_build_releases_objects_witness :
    (l_shader_new demo fresh (.string "broken") (.string "void main(void);")).1 =
      .error (.CompileError .GL_VERTEX_SHADER "0:1: syntax error") ∧
    live_objects
      (l_shader_new demo fresh (.string "broken") (.string "void main(void);")).2.log =
        live_objects fresh.log + 0 ∧
    live_objects
      (l_shader_new demo fresh (.string "void main(void);") (.string "void main(void);")).2.log =
        live_objects fresh.log + 1 ∧
    l_shader_new { demo with context_available := false } fresh (.string "void main(void);")
      (.string "void main(void);") = (.error .NoContext, fresh) :=
  ⟨rfl,
   (C7_build_releases_objects demo fresh (.string "broken") (.string "void main(void);")).2.2,
   (C7_build_releases_objects demo fresh (.string "void main(void);")
      (.string "void main(void);")).2.2,
   (C7_build_releases_objects { demo with context_available := false } fresh
      (.string "void main(void);") (.string "void main(void);")).2.1 rfl⟩

/-! ## The uniform read (lines 115–137) -/

/-- With a shader at stack index 1, `l_shader___index` returns the metatable entry of the
key and does nothing else. -/
theorem index_returns_metatable_entry (st : State) (s : shader) (key : String) :
    l_shader___index st (some s) key =
      (.ok (match shader_metatable key with
        | some f => .cfunction f
        | none => .nil), st) := rfl

/-- The uniform read block returns sixteen elements: the components the driver wrote, then
what the initialiser left, which is NaN only in the first element. -/
theorem index_uniform_sequence (E : Env) (st st1 : State) (s : shader) (name : String)
    (location : GLint) (hloc : get_uniform_location E st s name = (.ok location, st1))
    (hk : (E.glGetUniformfv st1.log s.id location).length ≤ 16) :
    ∃ params : List GLfloat,
      (l_shader___index_uniform E st s name).1 = .ok (.sequence (params.map GLfloat.widen)) ∧
      params.length = 16 ∧
      (∀ i : Nat, i < (E.glGetUniformfv st1.log s.id location).length →
        params[i]? = (E.glGetUniformfv st1.log s.id location)[i]?) ∧
      (∀ i : Nat, (E.glGetUniformfv st1.log s.id location).length ≤ i → 1 ≤ i → i < 16 →
        params[i]? = some GLfloat.zero) ∧
      ((E.glGetUniformfv st1.log s.id location).length = 0 → params[0]? = some GLfloat.nan) := by
  refine ⟨((E.glGetUniformfv st1.log s.id location) ++
    params_init.drop (E.glGetUniformfv st1.log s.id location).length).take 16, ?_, ?_, ?_, ?_, ?_⟩
  · simp only [l_shader___index_uniform, hloc]
  · simp [params_init]
    omega
  · intro i hi
    rw [List.getElem?_take_of_lt (by omega), List.getElem?_append_left hi]
  · intro i h1 h2 h3
    rw [List.getElem?_take_of_lt h3, List.getElem?_append_right h1, List.getElem?_drop]
    have e : (E.glGetUniformfv st1.log s.id location).length +
        (i - (E.glGetUniformfv st1.log s.id location).length) = (i - 1) + 1 := by omega
    rw [e]
    simp only [params_init, List.getElem?_cons_succ]
    rw [List.getElem?_replicate]
    simp
    omega
  · intro h0
    have : E.glGetUniformfv st1.log s.id location = [] := List.length_eq_zero.mp h0
    simp [this, params_init]

/-- C2, evaluated on the scalar uniform `u` of program 1 after `set(u, 2.5)`: the read
metamethod returns nil, not a sequence; and the read block, run on its own, returns the
sequence 2.5, 0, ..., 0, whose entries 2..16 are zero and not NaN. -/
theorem C2_read_after_write :
    (l_shader___newindex demo fresh ⟨1⟩ "u" (.number (.dyadic 5 (-1)))).1 = .ok () ∧
    (l_shader___index
      (l_shader___newindex demo fresh ⟨1⟩ "u" (.number (.dyadic 5 (-1)))).2
      (some ⟨1⟩) "u").1 = .ok .nil ∧
    (l_shader___index_uniform demo
      (l_shader___newindex demo fresh ⟨1⟩ "u" (.number (.dyadic 5 (-1)))).2
      ⟨1⟩ "u").1 =
        .ok (.sequence (.dyadic 5 (-1) :: List.replicate 15 (.dyadic 0 0))) ∧
    (GLfloat.dyadic 0 0).isNaN = false ∧ (lua_Number.dyadic 0 0).isNaN = false :=
  ⟨rfl, rfl, rfl, rfl, rfl⟩

/-! ## Persistence of cached locations -/

/-- The cached location of a name only depends on the two registries. -/
theorem lookup_congr (st st2 : State) (hu : st2.uniforms = st.uniforms)
    (ha : st2.attributes = st.attributes) (kind : Kind) (id : GLuint) (name : String) :
    st2.lookup kind id name = st.lookup kind id name := by
  cases kind <;> simp [State.lookup, State.registry, hu, ha]

/-- A cached name is a hit: the stored location is returned and the state is as it was. -/
theorem get_location_of_lookup (E : Env) (st : State) (s : shader) (name : String)
    (kind : Kind) (l : GLint) (h : st.lookup kind s.id name = some l) :
    get_location E st s name kind = (.ok l, st) := by
  unfold State.lookup at h
  cases hreg : st.registry kind with
  | none => simp [hreg] at h
  | some reg =>
    cases hprog : Table.rawget reg s.id with
    | none => simp [hreg, hprog] at h
    | some tbl =>
      simp [hreg, hprog] at h
      exact get_location_hit E st s name kind reg tbl l hreg hprog h

/-- A location that resolve returned is cached in the state resolve left. -/
theorem lookup_of_get_location (E : Env) (st st1 : State) (s : shader) (name : String)
    (kind : Kind) (l : GLint) (h : get_location E st s name kind = (.ok l, st1)) :
    st1.lookup kind s.id name = some l := by
  cases hreg : st.registry kind with
  | none =>
    rw [get_location_no_registry E st s name kind hreg] at h
    simp at h
  | some reg =>
    cases hprog : Table.rawget reg s.id with
    | none =>
      rw [get_location_no_table E st s name kind reg hreg hprog] at h
      simp at h
    | some tbl =>
      cases hname : Table.rawget tbl name with
      | some l2 =>
        rw [get_location_hit E st s name kind reg tbl l2 hreg hprog hname] at h
        simp at h
        obtain ⟨rfl, rfl⟩ := h
        simp [State.lookup, hreg, hprog, hname]
      | none =>
        rw [get_location_miss E st s name kind reg tbl hreg hprog hname] at h
        by_cases hl : E.getter kind st.log s.id name = -1
        · simp [hl] at h
        · simp [hl] at h
          obtain ⟨rfl, rfl⟩ := h
          cases kind <;>
            simp [State.lookup, State.registry, State.setRegistry, glCall, rawget_rawset_self]

/-- Resolving any name of any program in any registry keeps every cached location. -/
theorem lookup_preserved (E : Env) (st : State) (s : shader) (name : String) (kind : Kind)
    (k : Kind) (id : GLuint) (n : String) (l : GLint) (h : st.lookup k id n = some l) :
    (get_location E st s name kind).2.lookup k id n = some l := by
  cases hreg : st.registry kind with
  | none => rw [get_location_no_registry E st s name kind hreg]; exact h
  | some reg =>
    cases hprog : Table.rawget reg s.id with
    | none => rw [get_location_no_table E st s name kind reg hreg hprog]; exact h
    | some tbl =>
      cases hname : Table.rawget tbl name with
      | some l2 => rw [get_location_hit E st s name kind reg tbl l2 hreg hprog hname]; exact h
      | none =>
        rw [get_location_miss E st s name kind reg tbl hreg hprog hname]
        by_cases hl : E.getter kind st.log s.id name = -1
        · rw [if_pos hl]
          rw [lookup_congr st (glCall st (kind.query s.id name)) rfl rfl]
          exact h
        · rw [if_neg hl]
          by_cases hk : k = kind
          · subst hk
            have hreg2 : ((glCall st (k.query s.id name)).setRegistry k
                (Table.rawset reg s.id (Table.rawset tbl name
                  (E.getter k st.log s.id name)))).registry k =
                some (Table.rawset reg s.id (Table.rawset tbl name
                  (E.getter k st.log s.id name))) := by
              cases k <;> rfl
            simp only [State.lookup, hreg] at h
            simp only [State.lookup, hreg2]
            by_cases hid : id = s.id
            · subst hid
              simp only [hprog] at h
              have hne : n ≠ name := by
                intro e
                rw [e, hname] at h
                simp at h
              simp only [rawget_rawset_self, rawget_rawset_ne _ _ _ _ hne]
              exact h
            · have hid2 : (id : Int) ≠ (s.id : Int) := fun e => hid (Int.ofNat_inj.mp e)
              simp only [rawget_rawset_ne _ _ _ _ hid2]
              exact h
          · have : ((glCall st (kind.query s.id name)).setRegistry kind
                (Table.rawset reg s.id (Table.rawset tbl name
                  (E.getter kind st.log s.id name)))).registry k = st.registry k := by
              cases kind <;> cases k <;> simp_all [State.registry, State.setRegistry, glCall]
            unfold State.lookup at h ⊢
            rw [this]
            exact h

/-- The registries a uniform write leaves are those location resolution left. -/
theorem newindex_registries (E : Env) (st : State) (s : shader) (name : String)
    (value : LuaValue) :
    (l_shader___newindex E st s name value).2.uniforms =
      (get_location E st s name .uniform).2.uniforms ∧
    (l_shader___newindex E st s name value).2.attributes =
      (get_location E st s name .uniform).2.attributes := by
  rcases hloc : get_uniform_location E st s name with ⟨r, st1⟩
  have hloc2 : get_location E st s name .uniform = (r, st1) := hloc
  cases r with
  | error e => rw [newindex_unresolved E st st1 s name value e hloc, hloc2]; exact ⟨rfl, rfl⟩
  | ok location =>
    rw [newindex_state E st st1 s name value location hloc, hloc2]; exact ⟨rfl, rfl⟩

/-- The registries the attribute binder leaves are those location resolution left. -/
theorem attribute_registries (E : Env) (fuel : Nat) (st : State) (s : shader) (name : String)
    (arg3 : Option vbo) (arg4 arg5 : Option Int) (r : Except Error shader × State)
    (h : l_shader_attribute E fuel st s name arg3 arg4 arg5 = some r) :
    r.2.uniforms = (get_location E st s name .attribute).2.uniforms ∧
    r.2.attributes = (get_location E st s name .attribute).2.attributes := by
  unfold l_shader_attribute get_attribute_location at h
  rcases hloc : get_location E st s name .attribute with ⟨r0, st1⟩
  rw [hloc] at h
  cases r0 with
  | error e =>
    simp at h
    subst h
    exact ⟨rfl, rfl⟩
  | ok location =>
    cases arg3 with
    | none =>
      simp at h
      subst h
      exact ⟨rfl, rfl⟩
    | some v =>
      simp only [] at h
      cases hlow : while_nonpositive fuel v.record_size (luaL_optint arg4 1) with
      | none => simp [hlow] at h
      | some low =>
        cases hhigh : while_nonpositive fuel v.record_size (luaL_optint arg5 v.record_size) with
        | none => simp [hlow, hhigh] at h
        | some high =>
          simp only [hlow, hhigh, attribute_range] at h
          split_ifs at h <;> simp at h <;> subst h <;> exact ⟨rfl, rfl⟩

/-- Every operation keeps every cached location. -/
theorem op_preserves_lookup (E : Env) (fuel : Nat) (st st2 : State) (op : Op)
    (hrun : op.run E fuel st = some st2) (k : Kind) (id : GLuint) (n : String) (l : GLint)
    (h : st.lookup k id n = some l) : st2.lookup k id n = some l := by
  cases op with
  | resolve p name kind =>
    simp [Op.run] at hrun
    subst hrun
    exact lookup_preserved E st p name kind k id n l h
  | getUniform p name =>
    simp [Op.run, l_shader___index] at hrun
    subst hrun
    exact h
  | readUniform p name =>
    simp [Op.run] at hrun
    subst hrun
    have hp := lookup_preserved E st p name .uniform k id n l h
    rw [← hp]
    apply lookup_congr <;>
      · unfold l_shader___index_uniform get_uniform_location
        rcases get_location E st p name .uniform with ⟨r0, st1⟩
        cases r0 <;> rfl
  | setUniform p name value =>
    simp [Op.run] at hrun
    subst hrun
    have hp := lookup_preserved E st p name .uniform k id n l h
    rw [← hp]
    exact lookup_congr _ _ (newindex_registries E st p name value).1
      (newindex_registries E st p name value).2 k id n
  | setAttribute p name arg3 arg4 arg5 =>
    simp only [Op.run] at hrun
    cases hr : l_shader_attribute E fuel st p name arg3 arg4 arg5 with
    | none => simp [hr] at hrun
    | some r =>
      simp [hr] at hrun
      subst hrun
      have hp := lookup_preserved E st p name .attribute k id n l h
      rw [← hp]
      exact lookup_congr _ _
        (attribute_registries E fuel st p name arg3 arg4 arg5 r hr).1
        (attribute_registries E fuel st p name arg3 arg4 arg5 r hr).2 k id n
  | setActive arg =>
    simp [Op.run] at hrun
    subst hrun
    rw [← h]
    apply lookup_congr <;> cases arg <;> rfl

/-- Every sequence of operations keeps every cached location. -/
theorem run_ops_preserves_lookup (E : Env) (fuel : Nat) (ops : List Op) :
    ∀ (st st2 : State), run_ops E fuel st ops = some st2 →
      ∀ (k : Kind) (id : GLuint) (n : String) (l : GLint),
        st.lookup k id n = some l → st2.lookup k id n = some l := by
  induction ops with
  | nil =>
    intro st st2 hrun k id n l h
    simp [run_ops] at hrun
    subst hrun
    exact h
  | cons op ops ih =>
    intro st st2 hrun k id n l h
    simp only [run_ops] at hrun
    cases hop : op.run E fuel st with
    | none => simp [hop] at hrun
    | some st1 =>
      simp only [hop] at hrun
      exact ih st1 st2 hrun k id n l (op_preserves_lookup E fuel st st1 op hop k id n l h)

/-- Cached locations persist: once resolve has returned a location for a name of a program,
then after any sequence of resolve, getUniform, setUniform, setAttribute and setActive
operations on any programs, resolve returns the same location and leaves the whole state as
it is: no driver query is issued and both caches are unchanged. -/
theorem cached_location_persists (E : Env) (fuel : Nat) (st st1 st2 : State) (p : shader)
    (name : String) (kind : Kind) (l : GLint) (ops : List Op)
    (hres : get_location E st p name kind = (.ok l, st1))
    (hrun : run_ops E fuel st1 ops = some st2) :
    get_location E st2 p name kind = (.ok l, st2) :=
  get_location_of_lookup E st2 p name kind l
    (run_ops_preserves_lookup E fuel ops st1 st2 hrun kind p.id name l
      (lookup_of_get_location E st st1 p name kind l hres))

theorem query_count_append (a b : List Event) :
    query_count (a ++ b) = query_count a + query_count b := by
  simp [query_count, List.filter_append]

theorem query_count_cons (e : Event) (l : List Event) :
    query_count (e :: l) =
      (if e.call.isLocationQuery = true then 1 else 0) + query_count l := by
  unfold query_count
  by_cases h : e.call.isLocationQuery = true <;> simp [List.filter, h, Nat.add_comm]

theorem query_count_nil : query_count [] = 0 := rfl

/-- An upload is not a location query. -/
theorem query_count_upload (E : Env) (location : GLint) (value : LuaValue) (cur : GLuint) :
    query_count (match upload_for E location value with
      | some c => [⟨c, cur⟩]
      | none => []) = 0 := by
  unfold upload_for
  by_cases hnum : lua_isnumber E value = true
  · simp [hnum, query_count_cons, query_count_nil, GLCall.isLocationQuery]
  · cases value <;> simp [hnum, query_count_nil] <;> split_ifs <;>
      simp [query_count_cons, query_count_nil, GLCall.isLocationQuery]

/-- The restore is not a location query. -/
theorem query_count_restore (a : Option shader) (cur : GLuint) :
    query_count (match a with
      | some a => [⟨GLCall.useProgram a.id, cur⟩]
      | none => []) = 0 := by
  cases a <;> simp [query_count_cons, query_count_nil, GLCall.isLocationQuery]

/-- A uniform write whose name is cached issues no location query. -/
theorem newindex_hit_queries (E : Env) (st : State) (s : shader) (name : String)
    (value : LuaValue) (l : GLint) (h : st.lookup .uniform s.id name = some l) :
    query_count (l_shader___newindex E st s name value).2.log = query_count st.log := by
  have hloc : get_uniform_location E st s name = (.ok l, st) :=
    get_location_of_lookup E st s name .uniform l h
  rw [newindex_state E st st s name value l hloc]
  simp [query_count_append, query_count_cons, query_count_nil, query_count_upload,
    query_count_restore, GLCall.isLocationQuery]

/-- Two consecutive writes: when the name is not yet cached for the program and the driver
knows it, two consecutive uniform writes of any two values issue exactly one location query
in total. -/
theorem two_writes_one_query (E : Env) (st : State) (s : shader) (name : String)
    (v1 v2 : LuaValue) (reg : Registry) (tbl : Table String GLint)
    (hreg : st.registry .uniform = some reg) (hprog : Table.rawget reg s.id = some tbl)
    (hname : Table.rawget tbl name = none)
    (hl : E.glGetUniformLocation st.log s.id name ≠ -1) :
    query_count
      (l_shader___newindex E (l_shader___newindex E st s name v1).2 s name v2).2.log =
        query_count st.log + 1 := by
  have hmiss := get_location_miss E st s name .uniform reg tbl hreg hprog hname
  have hl2 : ¬ E.getter .uniform st.log s.id name = -1 := hl
  rw [if_neg hl2] at hmiss
  have hcached := lookup_of_get_location E st _ s name .uniform _ hmiss
  have hcached2 : (l_shader___newindex E st s name v1).2.lookup .uniform s.id name =
      some (E.getter .uniform st.log s.id name) := by
    rw [← hcached]
    have hr := newindex_registries E st s name v1
    rw [hmiss] at hr
    exact lookup_congr _ _ hr.1 hr.2 .uniform s.id name
  rw [newindex_hit_queries E _ s name v2 _ hcached2,
    newindex_state E st _ s name v1 _ hmiss]
  simp [query_count_append, query_count_cons, query_count_nil, query_count_upload,
    query_count_restore, GLCall.isLocationQuery, glCall, State.setRegistry, Kind.query]

/-- C5, evaluated on two consecutive reads of the uniform `u` of program 1, a name the driver
knows and the cache, whose table for program 1 exists, does not hold yet: each read returns
the metatable entry of the key, nil, without resolving the name, so the two reads issue no
location query at all, where the claim has exactly one; two writes from the same state issue
one. -/
theorem C5_two_reads_issue_no_query :
    fresh.uniforms = some [(1, [])] ∧
    fresh.lookup .uniform 1 "u" = none ∧
    demo.glGetUniformLocation fresh.log 1 "u" = 0 ∧
    l_shader___index fresh (some ⟨1⟩) "u" = (.ok .nil, fresh) ∧
    query_count
      (l_shader___index (l_shader___index fresh (some ⟨1⟩) "u").2
        (some ⟨1⟩) "u").2.log = 0 ∧
    query_count
      (l_shader___newindex demo
        (l_shader___newindex demo fresh ⟨1⟩ "u" (.number (.dyadic 5 (-1)))).2
        ⟨1⟩ "u" (.number (.dyadic 5 (-1)))).2.log = 1 :=
  ⟨rfl, rfl, rfl, rfl, rfl, rfl⟩

/-- C4 amended, on the demo driver, for a buffer of records of 3 floats with low = -1 and
high omitted: both bounds are normalised to 3, and the attribute `position` is described with
one component, stride 12 and offset 8. -/
theorem C4_attribute_binding_witness :
    (1 : Int) ≤ (⟨7, 3⟩ : vbo).record_size ∧
    4 * (⟨7, 3⟩ : vbo).record_size < 2147483648 ∧
    get_attribute_location demo fresh ⟨1⟩ "position" =
      (.ok 0, (get_attribute_location demo fresh ⟨1⟩ "position").2) ∧
    (∃ (low high : Int) (fuel0 : Nat), ∀ fuel : Nat, fuel0 ≤ fuel →
      while_nonpositive fuel 3 (to_int (-1)) = some low ∧
      while_nonpositive fuel 3 (to_int 3) = some high ∧
      (1 ≤ high - low + 1 → high - low + 1 ≤ 4 →
        l_shader_attribute demo fuel fresh ⟨1⟩ "position" (some ⟨7, 3⟩) (some (-1)) none =
          some (.ok ⟨1⟩,
            { (get_attribute_location demo fresh ⟨1⟩ "position").2 with
              log := (get_attribute_location demo fresh ⟨1⟩ "position").2.log ++
                [⟨.enableVertexAttribArray (to_GLuint 0), 0⟩, ⟨.bindBuffer 7, 0⟩,
                 ⟨.vertexAttribPointer (to_GLuint 0) (high - low + 1) (4 * 3)
                    (4 * (low - 1)), 0⟩] })) ∧
      (high - low + 1 ≤ 0 ∨ 4 < high - low + 1 →
        l_shader_attribute demo fuel fresh ⟨1⟩ "position" (some ⟨7, 3⟩) (some (-1)) none =
          some (.error (.InvalidAttributeRange low high),
            (get_attribute_location demo fresh ⟨1⟩ "position").2))) ∧
    l_shader_attribute demo 2 fresh ⟨1⟩ "position" (some ⟨7, 3⟩) (some (-1)) none =
      some (.ok ⟨1⟩,
        { fresh with
          attributes := some [(1, [("position", 0)])]
          log := [⟨.getAttribLocation 1 "position", 0⟩, ⟨.enableVertexAttribArray 0, 0⟩,
            ⟨.bindBuffer 7, 0⟩, ⟨.vertexAttribPointer 0 1 12 8, 0⟩] }) ∧
    l_shader_attribute demo 2 fresh ⟨1⟩ "position" (some ⟨7, 3⟩) (some 1) none =
      some (.ok ⟨1⟩,
        { fresh with
          attributes := some [(1, [("position", 0)])]
          log := [⟨.getAttribLocation 1 "position", 0⟩, ⟨.enableVertexAttribArray 0, 0⟩,
            ⟨.bindBuffer 7, 0⟩, ⟨.vertexAttribPointer 0 3 12 0, 0⟩] }) ∧
    l_shader_attribute demo 2 fresh ⟨1⟩ "position" (some ⟨7, 6⟩) (some 1) none =
      some (.error (.InvalidAttributeRange 1 6),
        { fresh with
          attributes := some [(1, [("position", 0)])]
          log := [⟨.getAttribLocation 1 "position", 0⟩] }) :=
  ⟨by decide, by decide, rfl,
    (C4_attribute_binding demo fresh (get_attribute_location demo fresh ⟨1⟩ "position").2
      ⟨1⟩ "position" ⟨7, 3⟩ (some (-1)) none 0 (by decide) (by decide) rfl).2.2,
    rfl, rfl, rfl⟩

end G4L
